import Mathlib

/-!
Formal model of the blospray render server (the second-generation,
future-polling server in the source tree): the scene data store, the scene
object store, the plugin registry, and the render-session state machine of
`handle_connection` / `handle_client_message` / `start_rendering`.

The C++ globals become fields of explicit state records (`ServerState` for
the scene stores, `RenderState` for the render session and connection loop).
OSPRay handles and heap pointers are modelled as natural numbers drawn from a
`next_handle` counter; `ospRelease` calls are logged in a `released` list and
`ospResetAccumulation` calls in an `accum_resets` list.  External
collaborators (dlopen-based plugin loading, plugin generate functions, the
SHA-1 digest from the utility library, protobuf parsing and JSON parsing)
are passed in as explicit function parameters.
-/

set_option maxHeartbeats 1000000

/-- Association-list maps standing in for the `std::map` catalogs.
`mget` is lookup, `mset` is `operator[]` assignment (overwrite), `mdel`
is `erase(key)`. -/
def mget {κ α : Type} [DecidableEq κ] : List (κ × α) → κ → Option α
  | [], _ => none
  | (k2, v) :: r, k => if k2 = k then some v else mget r k

def mdel {κ α : Type} [DecidableEq κ] : List (κ × α) → κ → List (κ × α)
  | [], _ => []
  | kv :: r, k => if kv.1 = k then mdel r k else kv :: mdel r k

def mset {κ α : Type} [DecidableEq κ] (m : List (κ × α)) (k : κ) (v : α) : List (κ × α) :=
  (k, v) :: mdel m k

theorem mget_mdel_self {κ α : Type} [DecidableEq κ] (m : List (κ × α)) (k : κ) :
    mget (mdel m k) k = none := by
  induction m with
  | nil => rfl
  | cons kv r ih =>
    by_cases h : kv.1 = k
    · simpa [mdel, h] using ih
    · simpa [mdel, mget, h] using ih

theorem mget_mdel_ne {κ α : Type} [DecidableEq κ] (m : List (κ × α)) (k k2 : κ)
    (h : k2 ≠ k) : mget (mdel m k) k2 = mget m k2 := by
  induction m with
  | nil => rfl
  | cons kv r ih =>
    by_cases hk : kv.1 = k
    · simpa [mdel, mget, hk, Ne.symm h] using ih
    · by_cases hk2 : kv.1 = k2
      · simp [mdel, mget, hk, hk2, h]
      · simpa [mdel, mget, hk, hk2] using ih

theorem mget_mset_self {κ α : Type} [DecidableEq κ] (m : List (κ × α)) (k : κ) (v : α) :
    mget (mset m k v) k = some v := by
  simp [mset, mget]

theorem mget_mset_ne {κ α : Type} [DecidableEq κ] (m : List (κ × α)) (k k2 : κ) (v : α)
    (h : k2 ≠ k) : mget (mset m k v) k2 = mget m k2 := by
  have hne : k ≠ k2 := fun e => h e.symm
  unfold mset
  simp only [mget, hne, if_false]
  exact mget_mdel_ne m k k2 h

/-! JSON values as parsed by the nlohmann library (`json.hpp`).  Floating
point payloads are not tracked (no modelled code path reads them); only the
type tags and sizes that `check_plugin_parameters` and the isovalue handling
inspect are kept. -/

inductive JPrim where
  | jnull : JPrim
  | jbool : Bool → JPrim
  | jint : Int → JPrim
  | jfloat : JPrim
  | jstr : String → JPrim
deriving DecidableEq, Repr

/-- A JSON value.  Array elements are modelled as scalars: no modelled code
path inspects array contents (the source marks checking array items as a
to-do and the isovalue loop only converts elements to floats, which are not
tracked); nested containers are outside the model. -/
inductive JValue where
  | jnull : JValue
  | jbool : Bool → JValue
  | jint : Int → JValue
  | jfloat : JValue
  | jstr : String → JValue
  | jarr : List JPrim → JValue
deriving DecidableEq, Repr

/-- A parsed top-level JSON object (parameter bags and custom properties are
always objects in the protocol). -/
def JObject : Type := List (String × JValue)

instance : DecidableEq JObject := by
  unfold JObject
  infer_instance

def jlookup (o : JObject) (k : String) : Option JValue := mget o k

/-- nlohmann `is_array`. -/
def JValue.is_array : JValue → Bool
  | .jarr _ => true
  | _ => false

/-- nlohmann `is_primitive` (null, boolean, number, string). -/
def JValue.is_primitive : JValue → Bool
  | .jarr _ => false
  | _ => true

/-- nlohmann `is_number_integer`. -/
def JValue.is_number_integer : JValue → Bool
  | .jint _ => true
  | _ => false

/-- nlohmann `is_number_float`. -/
def JValue.is_number_float : JValue → Bool
  | .jfloat => true
  | _ => false

/-- nlohmann `is_string`. -/
def JValue.is_string : JValue → Bool
  | .jstr _ => true
  | _ => false

/-- nlohmann `size()`: array length, else 1 for primitives, 0 for null. -/
def jsize : JValue → Nat
  | .jarr xs => xs.length
  | .jnull => 0
  | _ => 1

/-! Plugin contract data (`plugin.h` is outside `src/`; the parameter record
follows the spec: name, scalar/array arity via `length`, primitive type,
descriptive flags). -/

inductive PluginType where
  | PT_GEOMETRY : PluginType
  | PT_VOLUME : PluginType
  | PT_SCENE : PluginType
deriving DecidableEq, Repr

inductive ParameterType where
  | PARAM_INT : ParameterType
  | PARAM_FLOAT : ParameterType
  | PARAM_STRING : ParameterType
  | PARAM_USER : ParameterType
deriving DecidableEq, Repr

structure PluginParameter where
  name : String
  ptype : ParameterType
  length : Int
  flags : Nat
  description : String
deriving DecidableEq, Repr

structure PluginDefinition where
  uses_renderer_type : Bool
  parameters : List PluginParameter
  has_generate_function : Bool
deriving DecidableEq, Repr

structure GenerateFunctionResult where
  success : Bool
  message : String
deriving DecidableEq, Repr

/-- One declared parameter checked against the actual parameter bag; returns
the diagnostic the source would print, or `none` when the parameter passes.
Mirrors the body of the `for` loop in `check_plugin_parameters`
(the `PARAM_STRING` case falls through into `PARAM_USER`, which checks
nothing, so the fall-through is behaviourally invisible). -/
def check_one_parameter (pdef : PluginParameter) (actual_parameters : JObject) :
    Option String :=
  match jlookup actual_parameters pdef.name with
  | none => some ("ERROR: Missing parameter " ++ pdef.name ++ "!")
  | some value =>
    if 1 < pdef.length then
      if value.is_array then none
      else some ("ERROR: Expected array of length " ++ toString pdef.length ++
        " for parameter " ++ pdef.name ++ "!")
    else
      if value.is_primitive = false then
        some ("ERROR: Expected primitive value for parameter " ++ pdef.name ++
          ", but found array of length " ++ toString (jsize value) ++ "!")
      else
        match pdef.ptype with
        | .PARAM_INT =>
          if value.is_number_integer then none
          else some ("ERROR: Expected integer value for parameter " ++ pdef.name ++ "!")
        | .PARAM_FLOAT =>
          if value.is_number_float then none
          else some ("ERROR: Expected float value for parameter " ++ pdef.name ++ "!")
        | .PARAM_STRING =>
          if value.is_string then none
          else some ("ERROR: Expected string value for parameter " ++ pdef.name ++ "!")
        | .PARAM_USER => none

/-- `check_plugin_parameters`: walks every declared parameter, never breaking
out early; the boolean is the return value, the string list collects the
diagnostics printed along the way.  The `GenerateFunctionResult` argument of
the source is never touched by the function, so it is omitted here. -/
def check_plugin_parameters (plugin_parameters : List PluginParameter)
    (actual_parameters : JObject) : Bool × List String :=
  plugin_parameters.foldl
    (fun acc pdef =>
      match check_one_parameter pdef actual_parameters with
      | none => acc
      | some e => (false, acc.2 ++ [e]))
    (true, [])

/-! Scene data store and scene object store state.  Heap pointers for
`SceneObject` allocations and OSPRay handles share one `next_handle`
counter; every allocation is globally fresh. -/

inductive SceneDataType where
  | SDT_PLUGIN : SceneDataType
  | SDT_MESH : SceneDataType
deriving DecidableEq, Repr

/-- `PluginState`: renderer bookkeeping plus the generated output bundle.
Transforms are opaque tokens; `group_instances` pairs a group handle with a
transform token.  The float pair `volume_data_range` is not tracked. -/
structure PluginState where
  renderer : String
  uses_renderer_type : Bool
  parameters : JObject
  geometry : Option Nat
  volume : Option Nat
  group_instances : List (Nat × Nat)
  lights : List Nat
  bound : Option Nat
deriving DecidableEq

structure PluginInstance where
  name : String
  type : PluginType
  plugin_name : String
  parameters_hash : String
  custom_properties_hash : String
  state : PluginState
deriving DecidableEq

structure BlenderMesh where
  name : String
  num_vertices : Nat
  num_triangles : Nat
  geometry : Option Nat
deriving DecidableEq

inductive SceneObjectType where
  | SOT_MESH : SceneObjectType
  | SOT_GEOMETRY : SceneObjectType
  | SOT_VOLUME : SceneObjectType
  | SOT_SLICE : SceneObjectType
  | SOT_ISOSURFACES : SceneObjectType
  | SOT_SCENE : SceneObjectType
  | SOT_LIGHT : SceneObjectType
deriving DecidableEq, Repr

/-- The `SceneObject` class hierarchy of `scene.h` as a sum type; each
variant carries the renderer-native handles its subclass owns. -/
inductive SceneObject where
  | mesh (data_link : String) (gmodel : Option Nat) (group : Nat) (osp_instance : Nat)
  | geometry (data_link : String) (gmodel : Option Nat) (group : Nat) (osp_instance : Nat)
  | volume (data_link : String) (vmodel : Option Nat) (group : Nat) (osp_instance : Nat)
  | isosurfaces (data_link : String) (vmodel : Option Nat) (isosurfaces_geometry : Nat)
      (gmodel : Nat) (group : Nat) (osp_instance : Nat)
  | scene (data_link : String) (instances : List Nat) (lights : List Nat)
  | light (data_link : String) (light_handle : Nat) (light_type : Nat)
deriving DecidableEq

def SceneObject.sot : SceneObject → SceneObjectType
  | .mesh .. => .SOT_MESH
  | .geometry .. => .SOT_GEOMETRY
  | .volume .. => .SOT_VOLUME
  | .isosurfaces .. => .SOT_ISOSURFACES
  | .scene .. => .SOT_SCENE
  | .light .. => .SOT_LIGHT

/-- Handles released by the destructor of each `SceneObject` subclass
(`scene.h`): the mesh/geometry destructors release the geometric model (when
set) and the instance, the volume/isosurfaces destructors the volumetric
model (when set) and the instance, the scene destructor its owned instances
and lights, the light destructor its light handle. -/
def SceneObject.dtor_releases : SceneObject → List Nat
  | .mesh _ gmodel _ inst => gmodel.toList ++ [inst]
  | .geometry _ gmodel _ inst => gmodel.toList ++ [inst]
  | .volume _ vmodel _ inst => vmodel.toList ++ [inst]
  | .isosurfaces _ vmodel _ _ _ inst => vmodel.toList ++ [inst]
  | .scene _ insts lights => insts ++ lights
  | .light _ l _ => [l]

/-- The process-wide catalogs of the render server as one state record. -/
structure ServerState where
  current_renderer_type : String
  plugin_definitions : List (String × PluginDefinition)
  plugin_instances : List (String × PluginInstance)
  plugin_state : List (String × PluginState)
  scene_data_types : List (String × SceneDataType)
  blender_meshes : List (String × BlenderMesh)
  scene_objects : List (String × Nat)
  heap : List (Nat × SceneObject)
  scene_materials : List (String × Nat)
  default_materials : List (String × Nat)
  scene_instances : List Nat
  scene_lights : List Nat
  next_handle : Nat
  released : List Nat
deriving DecidableEq

/-- OSPRay handles released by `delete_plugin_instance` according to the
plugin kind of the stored instance. -/
def plugin_resource_handles (pi2 : PluginInstance) : List Nat :=
  match pi2.type with
  | .PT_GEOMETRY => pi2.state.geometry.toList
  | .PT_VOLUME => pi2.state.volume.toList
  | .PT_SCENE => pi2.state.group_instances.map Prod.fst ++ pi2.state.lights

/-- `delete_plugin_instance`: releases the plugin-generated OSPRay resources
and erases the instance from all three catalogs; a missing name only prints
an error.  (The bounding-mesh deletion frees host memory, not a handle.) -/
def delete_plugin_instance (s : ServerState) (name : String) : ServerState :=
  match mget s.plugin_instances name with
  | none => s
  | some pi2 =>
    { s with released := s.released ++ plugin_resource_handles pi2,
             plugin_instances := mdel s.plugin_instances name,
             plugin_state := mdel s.plugin_state name,
             scene_data_types := mdel s.scene_data_types name }

/-- `delete_scene_data`: dispatches on the recorded kind; deleting a Blender
mesh is still a to-do in the source, so only the kind entry is erased in
that case. -/
def delete_scene_data (s : ServerState) (name : String) : ServerState :=
  match mget s.scene_data_types name with
  | none => s
  | some .SDT_PLUGIN =>
    let s2 := delete_plugin_instance s name
    { s2 with scene_data_types := mdel s2.scene_data_types name }
  | some .SDT_MESH =>
    { s with scene_data_types := mdel s.scene_data_types name }

def scene_data_with_type_exists (s : ServerState) (name : String) (t : SceneDataType) :
    Bool :=
  match mget s.scene_data_types name with
  | none => false
  | some t2 => t2 = t

/-- `free_object` models `delete scene_object`: the destructor releases the
subclass handles and the allocation disappears from the heap (any name still
mapping to `p` in `scene_objects` becomes dangling). -/
def free_object (s : ServerState) (p : Nat) : ServerState :=
  match mget s.heap p with
  | none => s
  | some o => { s with heap := mdel s.heap p, released := s.released ++ o.dtor_releases }

def delete_object (s : ServerState) (object_name : String) : ServerState :=
  match mget s.scene_objects object_name with
  | none => s
  | some p =>
    let s2 := free_object s p
    { s2 with scene_objects := mdel s2.scene_objects object_name }

/-- `find_scene_object` with the default `delete_existing_mismatch=true`
(every caller uses the default): a type mismatch deletes the existing object
and reports no existing object. -/
def find_scene_object (s : ServerState) (name : String) (t : SceneObjectType) :
    Option Nat × ServerState :=
  match mget s.scene_objects name with
  | some p =>
    match mget s.heap p with
    | some o => if o.sot ≠ t then (none, delete_object s name) else (some p, s)
    | none => (none, s)
  | none => (none, s)

/-! Plugin registry. -/

/-- Outcome of the dlopen/dlsym/initialize sequence for one shared object;
the message is what `ensure_plugin_is_loaded` stores into the result on that
failure (failed open, missing initialization entry point, or the entry point
returning false). -/
inductive LoadOutcome where
  | load_error : String → LoadOutcome
  | ok : PluginDefinition → LoadOutcome

/-- The externally loaded plugin code: the loader (by internal name) and the
generate entry point. -/
structure PluginLib where
  load : String → LoadOutcome
  generate : PluginState → GenerateFunctionResult × PluginState

def internal_plugin_name (t : PluginType) (name : String) : String :=
  (match t with
   | .PT_VOLUME => "volume"
   | .PT_GEOMETRY => "geometry"
   | .PT_SCENE => "scene") ++ "_" ++ name

inductive EnsureOut where
  | failed : GenerateFunctionResult → EnsureOut
  | loaded : PluginDefinition → ServerState → EnsureOut

/-- `ensure_plugin_is_loaded`: consult the definition cache, otherwise load
and cache.  An empty plugin name fails WITHOUT touching the passed-in result
(the source only prints); load failures set a failure result and are not
cached, so later calls retry. -/
def ensure_plugin_is_loaded (lib : PluginLib) (s : ServerState)
    (result : GenerateFunctionResult) (t : PluginType) (name : String) : EnsureOut :=
  if name = "" then .failed result
  else
    match mget s.plugin_definitions (internal_plugin_name t name) with
    | some d => .loaded d s
    | none =>
      match lib.load (internal_plugin_name t name) with
      | .load_error msg => .failed { success := false, message := msg }
      | .ok d => .loaded d
          { s with plugin_definitions := mset s.plugin_definitions (internal_plugin_name t name) d }

/-- The `UpdatePluginInstance` protobuf message after the type switch at the
top of the handler; `parsed_parameters` and the serialized string describe
the same JSON (parsing is external). -/
structure UpdatePluginInstance where
  name : String
  type : PluginType
  plugin_name : String
  plugin_parameters : String
  custom_properties : String
  parsed_parameters : JObject
deriving DecidableEq

/-- Observable outcome of `handle_update_plugin_instance`: the state, the
boolean returned to the connection loop, the single result protobuf sent to
the client, whether the generate entry point ran, and the diagnostics
accumulated by parameter validation. -/
structure UpdatePluginResult where
  s : ServerState
  ret : Bool
  sent : GenerateFunctionResult
  generate_called : Bool
  check_errors : List String

/-- The fresh `PluginState` built before calling the generate function. -/
def initial_plugin_state (s : ServerState) (d : PluginDefinition) (params : JObject) :
    PluginState :=
  { renderer := s.current_renderer_type, uses_renderer_type := d.uses_renderer_type,
    parameters := params, geometry := none, volume := none,
    group_instances := [], lights := [], bound := none }

/-- The cache check of `handle_update_plugin_instance` (is the stored
instance still up to date, deleting a stale one): returns the
`create_new_instance` flag and the possibly modified state. -/
def plugin_cache_check (hash : String → String) (s0 : ServerState)
    (update : UpdatePluginInstance) : Bool × ServerState :=
  if scene_data_with_type_exists s0 update.name SceneDataType.SDT_PLUGIN then
    match mget s0.plugin_instances update.name with
    | none => (true, s0)
    | some plugin_instance =>
      if plugin_instance.type ≠ update.type ∨
          plugin_instance.plugin_name ≠ update.plugin_name then
        (true, delete_plugin_instance s0 update.name)
      else if hash update.plugin_parameters ≠ plugin_instance.parameters_hash then
        (true, delete_plugin_instance s0 update.name)
      else if hash update.custom_properties ≠ plugin_instance.custom_properties_hash then
        (true, delete_plugin_instance s0 update.name)
      else if plugin_instance.state.uses_renderer_type ∧
          plugin_instance.state.renderer ≠ s0.current_renderer_type then
        (true, delete_plugin_instance s0 update.name)
      else
        (false, s0)
  else (true, s0)

/-- The create path of `handle_update_plugin_instance`, entered when the
cache check decided a new instance is needed (state `s1` already has any
stale instance deleted): load the plugin, check the generate entry point,
validate parameters, run generation, check the kind-specific output and
store the new instance. -/
def hupi_create_path (lib : PluginLib) (hash : String → String)
    (update : UpdatePluginInstance) (s1 : ServerState) : UpdatePluginResult :=
  match ensure_plugin_is_loaded lib s1 { success := true, message := "" }
      update.type update.plugin_name with
    | .failed r =>
      { s := s1, ret := false, sent := r, generate_called := false, check_errors := [] }
    | .loaded plugin_definition s2 =>
      if plugin_definition.has_generate_function = false then
        -- the source sets only the message here, not the success flag
        { s := s2, ret := false,
          sent := { success := true, message := "Plugin generate_function is NULL!" },
          generate_called := false, check_errors := [] }
      else
        let check := check_plugin_parameters plugin_definition.parameters
          update.parsed_parameters
        if check.1 = false then
          -- the source neither sets the success flag nor a message here
          { s := s2, ret := false, sent := { success := true, message := "" },
            generate_called := false, check_errors := check.2 }
        else
          match lib.generate (initial_plugin_state s2 plugin_definition
              update.parsed_parameters) with
          | (result2, state) =>
            if result2.success = false then
              { s := s2, ret := false, sent := result2, generate_called := true,
                check_errors := [] }
            else
              let plugin_instance : PluginInstance :=
                { name := update.name, type := update.type,
                  plugin_name := update.plugin_name,
                  parameters_hash := hash update.plugin_parameters,
                  custom_properties_hash := hash update.custom_properties,
                  state := state }
              let stored : UpdatePluginResult :=
                { s := { s2 with
                    plugin_instances := mset s2.plugin_instances update.name plugin_instance,
                    plugin_state := mset s2.plugin_state update.name state,
                    scene_data_types :=
                      mset s2.scene_data_types update.name SceneDataType.SDT_PLUGIN },
                  ret := true, sent := result2, generate_called := true,
                  check_errors := [] }
              match update.type with
              | .PT_GEOMETRY =>
                if state.geometry = none then
                  { s := s2, ret := false, sent := result2, generate_called := true,
                    check_errors := [] }
                else stored
              | .PT_VOLUME =>
                if state.volume = none then
                  { s := s2, ret := false, sent := result2, generate_called := true,
                    check_errors := [] }
                else stored
              | .PT_SCENE => stored

/-- `handle_update_plugin_instance` (second-generation server): the cache
check of lines 620-661, then either the no-op cache-hit reply or the create
path. -/
def handle_update_plugin_instance (lib : PluginLib) (hash : String → String)
    (s0 : ServerState) (update : UpdatePluginInstance) : UpdatePluginResult :=
  match plugin_cache_check hash s0 update with
  | (false, s1) =>
    -- cached plugin instance still up to date: send the success result untouched
    { s := s1, ret := true, sent := { success := true, message := "" },
      generate_called := false, check_errors := [] }
  | (true, s1) => hupi_create_path lib hash update s1

/-- The `MeshData` protobuf header; the two attribute flags stand for the
`NORMALS` and `VERTEX_COLORS` bits of the `flags` word (bit values live in
the protobuf schema, outside `src/`). -/
structure MeshData where
  num_vertices : Nat
  num_triangles : Nat
  has_normals : Bool
  has_vertex_colors : Bool
deriving DecidableEq

/-- `handle_update_blender_mesh_data`: resolve the name (cross-kind
overwrite deletes the old data first), create a fresh mesh entity and
triangle geometry for an unseen name, record the received counts, reject
degenerate meshes, then receive the buffers and commit.  Each received
buffer becomes a transient `ospNewCopiedData` handle that is released after
being set on the geometry.  A `false` return models every failure exit. -/
def handle_update_blender_mesh_data (s0 : ServerState) (name : String)
    (mesh_data : MeshData) : Bool × ServerState :=
  let (create_new_mesh, s1) :=
    match mget s0.scene_data_types name with
    | none => (true, s0)
    | some t =>
      if t ≠ SceneDataType.SDT_MESH then (true, delete_scene_data s0 name)
      else (false, s0)
  let (blender_mesh, s2) :=
    if create_new_mesh then
      let g := s1.next_handle
      let bm : BlenderMesh := { name := "", num_vertices := 0, num_triangles := 0,
                                geometry := some g }
      (bm, { s1 with next_handle := s1.next_handle + 1,
                     blender_meshes := mset s1.blender_meshes name bm,
                     scene_data_types := mset s1.scene_data_types name SceneDataType.SDT_MESH })
    else
      match mget s1.blender_meshes name with
      | some bm => (bm, s1)
      | none =>
        -- std::map operator[] default-constructs a missing entry
        let bm : BlenderMesh := { name := "", num_vertices := 0, num_triangles := 0,
                                  geometry := none }
        (bm, { s1 with blender_meshes := mset s1.blender_meshes name bm })
  -- the counts are stored into the entity before the degenerate check
  let bm2 := { blender_mesh with num_vertices := mesh_data.num_vertices,
                                 num_triangles := mesh_data.num_triangles }
  let s3 := { s2 with blender_meshes := mset s2.blender_meshes name bm2 }
  if mesh_data.num_vertices = 0 ∨ mesh_data.num_triangles = 0 then
    (false, s3)
  else
    let n := 2 + (if mesh_data.has_normals then 1 else 0) +
      (if mesh_data.has_vertex_colors then 1 else 0)
    let handles := (List.range n).map (fun i => s3.next_handle + i)
    (true, { s3 with next_handle := s3.next_handle + n,
                     released := s3.released ++ handles })

/-- The `UpdateObject` protobuf message (transform as an opaque token,
custom properties already parsed). -/
structure UpdateObject where
  name : String
  data_link : String
  material_link : String
  object2world : Nat
  custom_properties : JObject
deriving DecidableEq

/-- `update_blender_mesh_object`: create or reuse the mesh scene object,
require the linked data to be a Blender mesh with a non-null geometry, then
update transform, group membership and material binding (parameter writes on
existing handles, invisible to the store model).  On a create-path failure
the fresh object is deleted again; on an update-path failure the existing
object is left as it was. -/
def update_blender_mesh_object (s0 : ServerState) (update : UpdateObject) :
    Bool × ServerState :=
  let object_name := update.name
  let linked_data := update.data_link
  let found := find_scene_object s0 object_name SceneObjectType.SOT_MESH
  let scene_object := found.1
  let s1 := found.2
  let (p, inst, s2) :=
    match scene_object with
    | none =>
      -- SceneObjectMesh constructor: new group, new instance of it
      let g := s1.next_handle
      let i := s1.next_handle + 1
      let q := s1.next_handle + 2
      (q, i, { s1 with next_handle := s1.next_handle + 3,
                       heap := mset s1.heap q (SceneObject.mesh "" none g i) })
    | some q =>
      match mget s1.heap q with
      | some (SceneObject.mesh _ _ _ i) => (q, i, s1)
      | _ => (q, 0, s1)     -- unreachable: find_scene_object checked the tag
  if scene_data_with_type_exists s2 linked_data SceneDataType.SDT_MESH = false then
    (false, if scene_object = none then free_object s2 p else s2)
  else
    let geometry :=
      match mget s2.blender_meshes linked_data with
      | some m => m.geometry
      | none => none
    match geometry with
    | none => (false, if scene_object = none then free_object s2 p else s2)
    | some _ =>
      match scene_object with
      | none =>
        let gmodel := s2.next_handle    -- ospNewGeometricModel(geometry)
        let obj :=
          match mget s2.heap p with
          | some (SceneObject.mesh _ _ g i) =>
            SceneObject.mesh linked_data (some gmodel) g i
          | some o => o
          | none => SceneObject.mesh linked_data (some gmodel) 0 0
        let s3 := { s2 with next_handle := s2.next_handle + 1,
                            heap := mset s2.heap p obj,
                            scene_objects := mset s2.scene_objects object_name p }
        (true, { s3 with scene_instances := s3.scene_instances ++ [inst] })
      | some _ =>
        (true, { s2 with scene_instances := s2.scene_instances ++ [inst] })

/-- `update_geometry_object`: same pattern for plugin-generated geometry;
the geometric model is created once on the create path and reused on the
update path. -/
def update_geometry_object (s0 : ServerState) (update : UpdateObject) :
    Bool × ServerState :=
  let object_name := update.name
  let linked_data := update.data_link
  let found := find_scene_object s0 object_name SceneObjectType.SOT_GEOMETRY
  let scene_object := found.1
  let s1 := found.2
  let (p, inst, s2) :=
    match scene_object with
    | none =>
      let g := s1.next_handle
      let i := s1.next_handle + 1
      let q := s1.next_handle + 2
      (q, i, { s1 with next_handle := s1.next_handle + 3,
                       heap := mset s1.heap q (SceneObject.geometry "" none g i) })
    | some q =>
      match mget s1.heap q with
      | some (SceneObject.geometry _ _ _ i) => (q, i, s1)
      | _ => (q, 0, s1)
  if scene_data_with_type_exists s2 linked_data SceneDataType.SDT_PLUGIN = false then
    (false, if scene_object = none then free_object s2 p else s2)
  else
    let geometry :=
      (mget s2.plugin_instances linked_data).bind (fun q => q.state.geometry)
    match geometry with
    | none => (false, if scene_object = none then free_object s2 p else s2)
    | some _ =>
      match scene_object with
      | none =>
        let gmodel := s2.next_handle
        let obj :=
          match mget s2.heap p with
          | some (SceneObject.geometry dl _ g i) =>
            SceneObject.geometry dl (some gmodel) g i
          | some o => o
          | none => SceneObject.geometry "" (some gmodel) 0 0
        let s3 := { s2 with next_handle := s2.next_handle + 1,
                            heap := mset s2.heap p obj,
                            scene_objects := mset s2.scene_objects object_name p }
        (true, { s3 with scene_instances := s3.scene_instances ++ [inst] })
      | some _ =>
        (true, { s2 with scene_instances := s2.scene_instances ++ [inst] })

/-- `update_isosurfaces_object`, translated with its inverted
`scene_object != nullptr` conditions kept as written: a linked-data failure
deletes the EXISTING object (leaving its name entry dangling) and leaks a
freshly constructed one, and on the update path the volumetric model is
recreated rather than reused (the block also re-stores the map entry and
contains an `assert(scene_objects.find(object_name) == scene_objects.end())`
that is false there).  The source also releases the linked plugin volume
handle on every successful call. -/
def update_isosurfaces_object (s0 : ServerState) (update : UpdateObject) :
    Bool × ServerState :=
  let object_name := update.name
  let linked_data := update.data_link
  let found := find_scene_object s0 object_name SceneObjectType.SOT_ISOSURFACES
  let scene_object := found.1
  let s1 := found.2
  let (p, inst, s2) :=
    match scene_object with
    | none =>
      -- constructor: isosurfaces geometry, its geometric model, group, instance
      let ig := s1.next_handle
      let gm := s1.next_handle + 1
      let g := s1.next_handle + 2
      let i := s1.next_handle + 3
      let q := s1.next_handle + 4
      (q, i, { s1 with next_handle := s1.next_handle + 5,
                       heap := mset s1.heap q (SceneObject.isosurfaces "" none ig gm g i) })
    | some q =>
      match mget s1.heap q with
      | some (SceneObject.isosurfaces _ _ _ _ _ i) => (q, i, s1)
      | _ => (q, 0, s1)
  if scene_data_with_type_exists s2 linked_data SceneDataType.SDT_PLUGIN = false then
    (false, if scene_object ≠ none then free_object s2 p else s2)
  else
    let volume :=
      (mget s2.plugin_instances linked_data).bind (fun q => q.state.volume)
    match volume with
    | none => (false, if scene_object ≠ none then free_object s2 p else s2)
    | some vol =>
      let s3 :=
        if scene_object ≠ none then
          let vm := s2.next_handle        -- ospNewVolumetricModel(volume)
          let tf := s2.next_handle + 1    -- create_transfer_function, released below
          let obj :=
            match mget s2.heap p with
            | some (SceneObject.isosurfaces dl _ ig gm g i) =>
              SceneObject.isosurfaces dl (some vm) ig gm g i
            | some o => o
            | none => SceneObject.isosurfaces "" (some vm) 0 0 0 0
          { s2 with next_handle := s2.next_handle + 2,
                    released := s2.released ++ [tf],
                    scene_objects := mset s2.scene_objects object_name p,
                    heap := mset s2.heap p obj }
        else s2
      match jlookup update.custom_properties "isovalues" with
      | none => (false, s3)
      | some _ =>
        -- isovalue OSPData created and released after being set
        let s4 := { s3 with next_handle := s3.next_handle + 1,
                            released := s3.released ++ [s3.next_handle] }
        -- the source releases the plugin volume handle it does not own
        let s5 := { s4 with released := s4.released ++ [vol] }
        let s6 :=
          if scene_object = none then
            { s5 with scene_objects := mset s5.scene_objects object_name p }
          else s5
        (true, { s6 with scene_instances := s6.scene_instances ++ [inst] })

/-! Render session state machine and connection loop (`RenderMode`,
`start_rendering`, `handle_client_message`, the body of the polling loop in
`handle_connection`).  Memory usage is an opaque natural number, variance an
opaque integer; image payloads (EXR files, raw pixel buffers) are outside
the model.  The outbound records keep a flag telling whether they went to
the separate render-output socket or to the command socket. -/

inductive RenderMode where
  | RM_IDLE : RenderMode
  | RM_FINAL : RenderMode
  | RM_INTERACTIVE : RenderMode
deriving DecidableEq, Repr

inductive RRType where
  | FRAME : RRType
  | DONE : RRType
  | CANCELED : RRType
deriving DecidableEq, Repr

/-- The `RenderResult` protobuf, mirroring the fields the loop sets.  The
C++ object is a local reused across iterations, so fields not overwritten
carry over (modelled by keeping the last value in `RenderState`). -/
structure RenderResultMsg where
  rtype : RRType
  sample : Nat
  reduction_factor : Nat
  width : Nat
  height : Nat
  variance : Int
  memory_usage : Nat
  peak_memory_usage : Nat
deriving DecidableEq, Repr

/-- A record as sent on the wire, with its destination (`to_output` is true
when it went to the separate render-output socket). -/
structure SentMsg where
  msg : RenderResultMsg
  to_output : Bool
deriving DecidableEq, Repr

/-- The in-flight `OSPFuture` with the framebuffer handle being rendered. -/
structure InFlight where
  id : Nat
  fb : Nat
deriving DecidableEq, Repr

/-- Observations delivered by the renderer for one completed frame:
`ospGetVariance`, the `memory_usage()` reading for the frame record, and the
second `memory_usage()` reading taken on the done path. -/
structure FrameEnv where
  variance : Int
  mem : Nat
  done_mem : Nat
deriving DecidableEq, Repr

/-- Render-session and connection-loop state: the render globals plus the
locals of `handle_connection` that persist across loop iterations
(`peak_memory_usage`, the reused `RenderResult`), a send trace, and
`stopped` recording a loop exit (`some b` when `handle_connection` would
have returned `b`). -/
structure RenderState where
  render_mode : RenderMode
  render_samples : Nat
  current_sample : Nat
  framebuffer_width : Nat
  framebuffer_height : Nat
  framebuffer_reduction_factor : Nat
  reduced_framebuffer_width : Nat
  reduced_framebuffer_height : Nat
  framebuffers : List (Option Nat)
  cancel_rendering : Bool
  render_future : Option InFlight
  render_output_socket : Option Nat
  peak_memory_usage : Nat
  render_result : RenderResultMsg
  sent : List SentMsg
  accum_resets : List Nat
  next_handle : Nat
  released : List Nat
  stopped : Option Bool
deriving DecidableEq, Repr

/-- `framebuffers[i]` (0 when absent; reachable states always hold the
indexed entry). -/
def fbAt (l : List (Option Nat)) (i : Nat) : Nat :=
  (l.getD i none).getD 0

/-- The framebuffer vector rebuilt by `start_rendering`: slot 0 unused, one
fresh accumulation-reset framebuffer per factor 1..R. -/
def mk_framebuffers (factor : Nat) (next : Nat) : List (Option Nat) × List Nat × Nat :=
  (none :: (List.range factor).map (fun i => some (next + i)),
   (List.range factor).map (fun i => next + i),
   next + factor)

/-- The relevant fields of `ClientMessage` for `start_rendering`:
`uint_value` (samples), `string_value` (mode), `uint_value2` (reduction
factor). -/
inductive ClientMsg where
  | start : String → Nat → Nat → ClientMsg
  | cancel : ClientMsg
  | request_render_output : ClientMsg
deriving DecidableEq, Repr

/-- `start_rendering`: ignored unless idle; final mode forces reduction
factor 1, interactive mode takes it from the message; the per-factor
framebuffer vector is rebuilt (releasing the old ones) when its size does
not match; the first frame is fired at the framebuffer for the start
factor.  `prepare_scene` only rebuilds the OSPWorld aggregate, which is
outside this state.  The size comparison is on `size_t` arithmetic, modelled
over the integers. -/
def start_rendering (s : RenderState) (mode : String) (samples reduction : Nat) :
    RenderState :=
  if s.render_mode ≠ RenderMode.RM_IDLE then s
  else
    let s := { s with render_samples := samples, current_sample := 1 }
    let s :=
      if mode = "final" then
        { s with render_mode := RenderMode.RM_FINAL, framebuffer_reduction_factor := 1 }
      else if mode = "interactive" then
        { s with render_mode := RenderMode.RM_INTERACTIVE,
                 framebuffer_reduction_factor := reduction }
      else s
    let s := { s with cancel_rendering := false }
    let s :=
      if ((s.framebuffers.length : Int) - 1) ≠ (s.framebuffer_reduction_factor : Int) then
        let old := s.framebuffers.filterMap id
        let built := mk_framebuffers s.framebuffer_reduction_factor s.next_handle
        { s with framebuffers := built.1,
                 released := s.released ++ old,
                 accum_resets := s.accum_resets ++ built.2.1,
                 next_handle := built.2.2 }
      else s
    let s := { s with
      reduced_framebuffer_width := s.framebuffer_width / s.framebuffer_reduction_factor,
      reduced_framebuffer_height := s.framebuffer_height / s.framebuffer_reduction_factor }
    let fut := InFlight.mk s.next_handle
      (fbAt s.framebuffers s.framebuffer_reduction_factor)
    { s with render_future := some fut, next_handle := s.next_handle + 1 }

/-- Outcome of `handle_client_message`: new state, return value, the
`connection_done` out-parameter, and whether the handler closed the command
socket. -/
structure HCMOut where
  st : RenderState
  ret : Bool
  connection_done : Bool
  sock_closed : Bool
deriving DecidableEq, Repr

/-- `handle_client_message` for the render-session messages.  The scene and
settings messages dispatch to the store operations modelled above (after
`ensure_idle_render_mode`) and do not interact with the loop claims.  A
cancel while idle is ignored with a warning; a render-output request is
refused (socket closed, failure returned) while rendering or when an output
socket is already registered, and otherwise registers the requesting socket
and ends the command loop normally. -/
def handle_client_message (sock : Nat) (s : RenderState) (m : ClientMsg) : HCMOut :=
  match m with
  | .start mode samples reduction =>
    { st := start_rendering s mode samples reduction, ret := true,
      connection_done := false, sock_closed := false }
  | .cancel =>
    if s.render_mode = RenderMode.RM_IDLE then
      { st := s, ret := true, connection_done := false, sock_closed := false }
    else
      { st := { s with cancel_rendering := true }, ret := true,
        connection_done := false, sock_closed := false }
  | .request_render_output =>
    if s.render_mode ≠ RenderMode.RM_IDLE then
      { st := s, ret := false, connection_done := true, sock_closed := true }
    else if s.render_output_socket.isSome then
      { st := s, ret := false, connection_done := true, sock_closed := true }
    else
      { st := { s with render_output_socket := some sock }, ret := true,
        connection_done := true, sock_closed := false }

/-- The cancellation branch of the polling loop: cancel and wait on the
future, release it, go idle, clear the flag, then send a single CANCELED
record (the destination test runs after the mode was already set to idle, so
the record always goes to the command socket). -/
def cancel_path (s : RenderState) : RenderState :=
  let s := { s with released := s.released ++ (s.render_future.map InFlight.id).toList,
                    render_future := none,
                    render_mode := RenderMode.RM_IDLE,
                    cancel_rendering := false }
  let rr := { s.render_result with rtype := RRType.CANCELED }
  let to_out :=
    if s.render_mode = RenderMode.RM_INTERACTIVE ∧ s.render_output_socket.isSome
    then true else false
  { s with render_result := rr, sent := s.sent ++ [SentMsg.mk rr to_out] }

/-- The frame-completed branch of the polling loop: release the future, read
variance and memory, update the running peak, send the FRAME record (file
payload in final mode, raw buffer in interactive mode), then either finish
(DONE record with a second memory reading, back to idle) or halve the
reduction factor (restarting accumulation at the finer framebuffer, sample
unchanged) or advance the sample, and fire the next frame. -/
def frame_path (s : RenderState) (env : FrameEnv) : RenderState :=
  let s := { s with released := s.released ++ (s.render_future.map InFlight.id).toList,
                    render_future := none }
  let peak := max s.peak_memory_usage env.mem
  let rr : RenderResultMsg :=
    { rtype := RRType.FRAME, sample := s.current_sample,
      reduction_factor := s.framebuffer_reduction_factor,
      width := s.reduced_framebuffer_width, height := s.reduced_framebuffer_height,
      variance := env.variance, memory_usage := env.mem, peak_memory_usage := peak }
  let to_out :=
    if s.render_mode = RenderMode.RM_INTERACTIVE then s.render_output_socket.isSome
    else false
  let s := { s with peak_memory_usage := peak, render_result := rr,
                    sent := s.sent ++ [SentMsg.mk rr to_out] }
  if s.current_sample = s.render_samples ∧ s.framebuffer_reduction_factor = 1 then
    let peak2 := max s.peak_memory_usage env.done_mem
    let done := { rr with rtype := RRType.DONE, memory_usage := env.done_mem,
                          peak_memory_usage := peak2 }
    { s with peak_memory_usage := peak2, render_result := done,
             sent := s.sent ++ [SentMsg.mk done s.render_output_socket.isSome],
             render_mode := RenderMode.RM_IDLE }
  else
    let s :=
      if 1 < s.framebuffer_reduction_factor then
        let f := s.framebuffer_reduction_factor >>> 1
        { s with framebuffer_reduction_factor := f,
                 reduced_framebuffer_width := s.framebuffer_width / f,
                 reduced_framebuffer_height := s.framebuffer_height / f,
                 accum_resets := s.accum_resets ++ [fbAt s.framebuffers f] }
      else
        { s with current_sample := s.current_sample + 1 }
    let fut := InFlight.mk s.next_handle
      (fbAt s.framebuffers s.framebuffer_reduction_factor)
    { s with render_future := some fut, next_handle := s.next_handle + 1 }

/-- The render part of one loop iteration: nothing while idle; a pending
cancel is honoured before `ospIsReady` is consulted; an unfinished frame
leaves the state alone. -/
def render_section (s : RenderState) (frame_ready : Bool) (env : FrameEnv) : RenderState :=
  if s.render_mode = RenderMode.RM_IDLE then s
  else if s.cancel_rendering then cancel_path s
  else if frame_ready = false then s
  else frame_path s env

/-- One polling-loop iteration: an optional readable client message, then
the `ospIsReady` observation for this iteration. -/
structure LoopIn where
  msg : Option ClientMsg
  frame_ready : Bool
  env : FrameEnv
deriving DecidableEq, Repr

/-- One iteration of the `while (true)` loop in `handle_connection`: handle
a readable message first (a failed handler returns false, `connection_done`
returns true; both end the loop), then run the render section. -/
def loop_iter (sock : Nat) (s : RenderState) (inp : LoopIn) : RenderState :=
  if s.stopped.isSome then s
  else
    match inp.msg with
    | some m =>
      let out := handle_client_message sock s m
      if out.ret = false then { out.st with stopped := some false }
      else if out.connection_done then { out.st with stopped := some true }
      else render_section out.st inp.frame_ready inp.env
    | none => render_section s inp.frame_ready inp.env

def loop_run (sock : Nat) (s : RenderState) (inps : List LoopIn) : RenderState :=
  inps.foldl (loop_iter sock) s

/-! Concrete fixtures used by witnesses and counterexamples. -/

def emptyServer : ServerState :=
  { current_renderer_type := "scivis", plugin_definitions := [], plugin_instances := [],
    plugin_state := [], scene_data_types := [], blender_meshes := [], scene_objects := [],
    heap := [], scene_materials := [], default_materials := [("scivis", 1), ("pathtracer", 2)],
    scene_instances := [], scene_lights := [], next_handle := 10, released := [] }

def zeroRenderResult : RenderResultMsg :=
  { rtype := RRType.FRAME, sample := 0, reduction_factor := 0, width := 0, height := 0,
    variance := 0, memory_usage := 0, peak_memory_usage := 0 }

def idleRender : RenderState :=
  { render_mode := RenderMode.RM_IDLE, render_samples := 1, current_sample := 1,
    framebuffer_width := 8, framebuffer_height := 8, framebuffer_reduction_factor := 1,
    reduced_framebuffer_width := 0, reduced_framebuffer_height := 0, framebuffers := [],
    cancel_rendering := false, render_future := none, render_output_socket := none,
    peak_memory_usage := 0, render_result := zeroRenderResult, sent := [],
    accum_resets := [], next_handle := 1, released := [], stopped := none }

def env0 : FrameEnv := { variance := 0, mem := 0, done_mem := 0 }

/-- An existing isosurfaces object named `o` at heap address 7 (handles 1-4
for its geometry, model, group and instance). -/
def isoServer : ServerState :=
  { emptyServer with heap := [(7, SceneObject.isosurfaces "" none 1 2 3 4)],
                     scene_objects := [("o", 7)] }

/-- An isosurfaces object update whose data link resolves to nothing. -/
def isoBadLinkUpdate : UpdateObject :=
  { name := "o", data_link := "missing", material_link := "", object2world := 0,
    custom_properties := [] }

/-- A stored volume plugin instance named `vol` whose state carries OSPVolume
handle 42. -/
def volPluginState : PluginState :=
  { renderer := "scivis", uses_renderer_type := false, parameters := [],
    geometry := none, volume := some 42, group_instances := [], lights := [],
    bound := none }

def volPluginInstance : PluginInstance :=
  { name := "vol", type := PluginType.PT_VOLUME, plugin_name := "raw",
    parameters_hash := "", custom_properties_hash := "", state := volPluginState }

def volServer : ServerState :=
  { emptyServer with plugin_instances := [("vol", volPluginInstance)],
                     plugin_state := [("vol", volPluginState)],
                     scene_data_types := [("vol", SceneDataType.SDT_PLUGIN)] }

def isoGoodUpdate : UpdateObject :=
  { name := "o", data_link := "vol", material_link := "", object2world := 0,
    custom_properties := [("isovalues", JValue.jarr [JPrim.jfloat])] }

/-- C2.  `update_blender_mesh_object` realises the claimed failure contract,
but `update_isosurfaces_object` has the create/update test inverted on its
failure paths.  At the failing input (an isosurfaces update whose data link
resolves to nothing, with a valid isosurfaces object already stored under
the name) the call returns failure but DELETES the previously valid object:
its handles are released, its heap allocation disappears, and the store is
left with a dangling name entry.  On the create path the partially
constructed object is leaked rather than discarded (the name is absent from
the store, but the allocation survives unreferenced).  The same function
also asserts `scene_objects.find(object_name) == scene_objects.end()` inside
its update path, where the name is necessarily present, so the source
contradicts its own assertion. -/
theorem c2_isosurfaces_failure_destroys_existing :
    (update_isosurfaces_object isoServer isoBadLinkUpdate).1 = false ∧
    mget (update_isosurfaces_object isoServer isoBadLinkUpdate).2.scene_objects "o" = some 7 ∧
    mget (update_isosurfaces_object isoServer isoBadLinkUpdate).2.heap 7 = none ∧
    (update_isosurfaces_object isoServer isoBadLinkUpdate).2.released = [4] ∧
    (update_isosurfaces_object emptyServer isoBadLinkUpdate).1 = false ∧
    mget (update_isosurfaces_object emptyServer isoBadLinkUpdate).2.scene_objects "o" = none ∧
    (mget (update_isosurfaces_object emptyServer isoBadLinkUpdate).2.heap 14).isSome = true := by
  decide

/-- C3.  A raw-mesh update with zero vertices is rejected (the handler
returns failure), but the data store is NOT left without an entity under the
name: the entity (here freshly created before the counts are checked) stays
registered in both the kind map and the mesh catalog. -/
theorem c3_degenerate_mesh_leaves_entity :
    (handle_update_blender_mesh_data emptyServer "m"
      { num_vertices := 0, num_triangles := 3, has_normals := false,
        has_vertex_colors := false }).1 = false ∧
    mget (handle_update_blender_mesh_data emptyServer "m"
      { num_vertices := 0, num_triangles := 3, has_normals := false,
        has_vertex_colors := false }).2.scene_data_types "m" = some SceneDataType.SDT_MESH ∧
    (mget (handle_update_blender_mesh_data emptyServer "m"
      { num_vertices := 0, num_triangles := 3, has_normals := false,
        has_vertex_colors := false }).2.blender_meshes "m").isSome = true := by
  decide

/-- C5.  Two consecutive successful isosurfaces updates of the same name:
the instance (13), group (12), geometric model (11) and isosurfaces geometry
(10) handles are reused, but the volumetric model handle is NOT: it is
`none` after the first (create) call and a freshly created handle (16) after
the second, because the recreation block runs on the update path instead of
the create path. -/
theorem c5_isosurfaces_vmodel_recreated :
    (update_isosurfaces_object volServer isoGoodUpdate).1 = true ∧
    mget (update_isosurfaces_object volServer isoGoodUpdate).2.heap 14 =
      some (SceneObject.isosurfaces "" none 10 11 12 13) ∧
    (update_isosurfaces_object (update_isosurfaces_object volServer isoGoodUpdate).2
      isoGoodUpdate).1 = true ∧
    mget (update_isosurfaces_object (update_isosurfaces_object volServer isoGoodUpdate).2
      isoGoodUpdate).2.heap 14 =
      some (SceneObject.isosurfaces "" (some 16) 10 11 12 13) := by
  decide

/-- A plugin declaring two scalar parameters, used to exercise validation. -/
def twoParamDefinition : PluginDefinition :=
  { uses_renderer_type := false,
    parameters :=
      [ { name := "radius", ptype := ParameterType.PARAM_FLOAT, length := 1, flags := 0,
          description := "" },
        { name := "count", ptype := ParameterType.PARAM_INT, length := 1, flags := 0,
          description := "" } ],
    has_generate_function := true }

def twoParamLib : PluginLib :=
  { load := fun _ => LoadOutcome.ok twoParamDefinition,
    generate := fun st => ({ success := true, message := "" }, st) }

def emptyParamsUpdate : UpdatePluginInstance :=
  { name := "d", type := PluginType.PT_GEOMETRY, plugin_name := "sphere",
    plugin_parameters := "", custom_properties := "", parsed_parameters := [] }

/-- C9.  Parameter validation examines every declared parameter and
accumulates both diagnostics (no fail-fast), the update stores no entity and
the handler reports failure to the connection loop; BUT the result protobuf
sent to the client still says success with no message, because
`check_plugin_parameters` never writes into the result it is handed. -/
theorem c9_validation_failure_sends_success_result :
    (handle_update_plugin_instance twoParamLib (fun x => x) emptyServer
      emptyParamsUpdate).check_errors =
      ["ERROR: Missing parameter radius!", "ERROR: Missing parameter count!"] ∧
    (handle_update_plugin_instance twoParamLib (fun x => x) emptyServer
      emptyParamsUpdate).ret = false ∧
    (handle_update_plugin_instance twoParamLib (fun x => x) emptyServer
      emptyParamsUpdate).generate_called = false ∧
    mget (handle_update_plugin_instance twoParamLib (fun x => x) emptyServer
      emptyParamsUpdate).s.scene_data_types "d" = none ∧
    mget (handle_update_plugin_instance twoParamLib (fun x => x) emptyServer
      emptyParamsUpdate).s.plugin_instances "d" = none ∧
    (handle_update_plugin_instance twoParamLib (fun x => x) emptyServer
      emptyParamsUpdate).sent.success = true ∧
    (handle_update_plugin_instance twoParamLib (fun x => x) emptyServer
      emptyParamsUpdate).sent.message = "" := by
  decide

/-- C10.  A render-output request is honoured exactly when the session is
idle and no output socket is registered: the requesting socket becomes the
output channel and the command loop ends normally (`connection_done` with a
true return).  While rendering, or with an output socket already set, the
requesting socket is closed, the handler reports failure, and the state
(including any previously registered output socket) is unchanged. -/
theorem c10_request_render_output (sock : Nat) (s : RenderState) :
    (s.render_mode ≠ RenderMode.RM_IDLE →
      handle_client_message sock s ClientMsg.request_render_output =
        { st := s, ret := false, connection_done := true, sock_closed := true }) ∧
    (s.render_mode = RenderMode.RM_IDLE → s.render_output_socket.isSome = true →
      handle_client_message sock s ClientMsg.request_render_output =
        { st := s, ret := false, connection_done := true, sock_closed := true }) ∧
    (s.render_mode = RenderMode.RM_IDLE → s.render_output_socket = none →
      handle_client_message sock s ClientMsg.request_render_output =
        { st := { s with render_output_socket := some sock }, ret := true,
          connection_done := true, sock_closed := false }) := by
  refine ⟨fun h => ?_, fun h1 h2 => ?_, fun h1 h2 => ?_⟩
  · simp [handle_client_message, h]
  · simp [handle_client_message, h1, h2]
  · simp [handle_client_message, h1, h2]

/-- C10 witness: the three cases of `c10_request_render_output` evaluated at
concrete states. -/
theorem c10_request_render_output_witness :
    (handle_client_message 5 { idleRender with render_mode := RenderMode.RM_FINAL }
        ClientMsg.request_render_output =
      { st := { idleRender with render_mode := RenderMode.RM_FINAL }, ret := false,
        connection_done := true, sock_closed := true }) ∧
    (handle_client_message 5 { idleRender with render_output_socket := some 9 }
        ClientMsg.request_render_output =
      { st := { idleRender with render_output_socket := some 9 }, ret := false,
        connection_done := true, sock_closed := true }) ∧
    (handle_client_message 5 idleRender ClientMsg.request_render_output =
      { st := { idleRender with render_output_socket := some 5 }, ret := true,
        connection_done := true, sock_closed := false }) := by
  refine ⟨?_, ?_, ?_⟩
  · exact (c10_request_render_output 5
      { idleRender with render_mode := RenderMode.RM_FINAL }).1 (by decide)
  · exact (c10_request_render_output 5
      { idleRender with render_output_socket := some 9 }).2.1 (by decide) (by decide)
  · exact (c10_request_render_output 5 idleRender).2.2 (by decide) (by decide)


/-! Helper lemmas for the connection-loop theorems. -/

def tickIn (b : Bool) (env : FrameEnv) : LoopIn :=
  { msg := none, frame_ready := b, env := env }

def msgIn (m : ClientMsg) (b : Bool) (env : FrameEnv) : LoopIn :=
  { msg := some m, frame_ready := b, env := env }

theorem loop_iter_tick (sock : Nat) (s : RenderState) (b : Bool) (env : FrameEnv)
    (hstop : s.stopped = none) :
    loop_iter sock s (tickIn b env) = render_section s b env := by
  simp [loop_iter, tickIn, hstop]

theorem loop_iter_start (sock : Nat) (s : RenderState) (mode : String)
    (samples reduction : Nat) (b : Bool) (env : FrameEnv) (hstop : s.stopped = none) :
    loop_iter sock s (msgIn (ClientMsg.start mode samples reduction) b env) =
      render_section (start_rendering s mode samples reduction) b env := by
  simp [loop_iter, msgIn, hstop, handle_client_message]

theorem loop_iter_cancel_busy (sock : Nat) (s : RenderState) (b : Bool) (env : FrameEnv)
    (hstop : s.stopped = none) (hmode : s.render_mode ≠ RenderMode.RM_IDLE) :
    loop_iter sock s (msgIn ClientMsg.cancel b env) =
      cancel_path { s with cancel_rendering := true } := by
  simp [loop_iter, msgIn, hstop, handle_client_message, hmode, render_section]

theorem render_section_idle (s : RenderState) (b : Bool) (env : FrameEnv)
    (h : s.render_mode = RenderMode.RM_IDLE) : render_section s b env = s := by
  simp [render_section, h]

theorem render_section_not_ready (s : RenderState) (env : FrameEnv)
    (hmode : s.render_mode ≠ RenderMode.RM_IDLE) (hcancel : s.cancel_rendering = false) :
    render_section s false env = s := by
  simp [render_section, hmode, hcancel]

theorem cancel_path_eq (s : RenderState) (f : InFlight) (hfut : s.render_future = some f) :
    cancel_path s =
      { s with released := s.released ++ [f.id], render_future := none,
               render_mode := RenderMode.RM_IDLE, cancel_rendering := false,
               render_result := { s.render_result with rtype := RRType.CANCELED },
               sent := s.sent ++
                 [SentMsg.mk { s.render_result with rtype := RRType.CANCELED } false] } := by
  simp [cancel_path, hfut]

/-- Field contract of `start_rendering` for a final-mode start from idle. -/
theorem start_rendering_final_fields (s : RenderState) (samples reduction : Nat)
    (hidle : s.render_mode = RenderMode.RM_IDLE) :
    (start_rendering s "final" samples reduction).render_mode = RenderMode.RM_FINAL ∧
    (start_rendering s "final" samples reduction).render_samples = samples ∧
    (start_rendering s "final" samples reduction).current_sample = 1 ∧
    (start_rendering s "final" samples reduction).framebuffer_reduction_factor = 1 ∧
    (start_rendering s "final" samples reduction).cancel_rendering = false ∧
    (start_rendering s "final" samples reduction).render_future.isSome = true ∧
    (start_rendering s "final" samples reduction).stopped = s.stopped ∧
    (start_rendering s "final" samples reduction).sent = s.sent ∧
    (start_rendering s "final" samples reduction).peak_memory_usage = s.peak_memory_usage ∧
    (start_rendering s "final" samples reduction).render_output_socket
      = s.render_output_socket ∧
    (start_rendering s "final" samples reduction).reduced_framebuffer_width
      = s.framebuffer_width ∧
    (start_rendering s "final" samples reduction).reduced_framebuffer_height
      = s.framebuffer_height := by
  unfold start_rendering
  simp [hidle]
  repeat' apply And.intro
  all_goals split <;> simp

/-- Field contract of `start_rendering` for an interactive-mode start from
idle: the session enters interactive mode at the requested reduction factor,
sample 1, with the first frame in flight over the framebuffer stored at that
factor. -/
theorem start_rendering_interactive_fields (s : RenderState) (samples reduction : Nat)
    (hidle : s.render_mode = RenderMode.RM_IDLE) :
    (start_rendering s "interactive" samples reduction).render_mode
      = RenderMode.RM_INTERACTIVE ∧
    (start_rendering s "interactive" samples reduction).render_samples = samples ∧
    (start_rendering s "interactive" samples reduction).current_sample = 1 ∧
    (start_rendering s "interactive" samples reduction).framebuffer_reduction_factor
      = reduction ∧
    (start_rendering s "interactive" samples reduction).cancel_rendering = false ∧
    (start_rendering s "interactive" samples reduction).render_future.map InFlight.fb =
      some (fbAt (start_rendering s "interactive" samples reduction).framebuffers
        reduction) ∧
    (start_rendering s "interactive" samples reduction).stopped = s.stopped := by
  unfold start_rendering
  simp [hidle]
  repeat' apply And.intro
  all_goals split <;> simp

/-- C6.  A cancel request received while a render is in flight: within the
same loop iteration the pending-cancel flag is set and the cancellation
branch runs before `ospIsReady` is consulted, so the in-flight future is
released before any further sample begins; exactly one CANCELED record is
appended to the send trace, the session returns to idle with the flag
cleared and no new frame in flight, and a subsequent start-rendering message
is accepted (the session enters final mode with a fresh frame in flight). -/
theorem c6_cancel_mid_render (sock : Nat) (s : RenderState) (f : InFlight) (b : Bool)
    (env : FrameEnv) (samples reduction : Nat) (env2 : FrameEnv)
    (hmode : s.render_mode ≠ RenderMode.RM_IDLE) (hstop : s.stopped = none)
    (hfut : s.render_future = some f) :
    (loop_iter sock s (msgIn ClientMsg.cancel b env)).render_mode
        = RenderMode.RM_IDLE ∧
    (loop_iter sock s (msgIn ClientMsg.cancel b env)).render_future = none ∧
    (loop_iter sock s (msgIn ClientMsg.cancel b env)).released
        = s.released ++ [f.id] ∧
    (loop_iter sock s (msgIn ClientMsg.cancel b env)).cancel_rendering = false ∧
    (loop_iter sock s (msgIn ClientMsg.cancel b env)).sent
        = s.sent ++ [SentMsg.mk { s.render_result with rtype := RRType.CANCELED } false] ∧
    (loop_iter sock s (msgIn ClientMsg.cancel b env)).stopped = none ∧
    (loop_iter sock (loop_iter sock s (msgIn ClientMsg.cancel b env))
        (msgIn (ClientMsg.start "final" samples reduction) false env2)).render_mode
        = RenderMode.RM_FINAL ∧
    (loop_iter sock (loop_iter sock s (msgIn ClientMsg.cancel b env))
        (msgIn (ClientMsg.start "final" samples reduction) false env2)).render_future.isSome
        = true := by
  have key : loop_iter sock s (msgIn ClientMsg.cancel b env) =
      { s with released := s.released ++ [f.id], render_future := none,
               render_mode := RenderMode.RM_IDLE, cancel_rendering := false,
               render_result := { s.render_result with rtype := RRType.CANCELED },
               sent := s.sent ++
                 [SentMsg.mk { s.render_result with rtype := RRType.CANCELED } false] } := by
    rw [loop_iter_cancel_busy sock s b env hstop hmode]
    exact (cancel_path_eq { s with cancel_rendering := true } f hfut).trans rfl
  have general : ∀ t : RenderState, t.render_mode = RenderMode.RM_IDLE →
      t.stopped = none →
      (loop_iter sock t
        (msgIn (ClientMsg.start "final" samples reduction) false env2)).render_mode
          = RenderMode.RM_FINAL ∧
      (loop_iter sock t
        (msgIn (ClientMsg.start "final" samples reduction) false env2)).render_future.isSome
          = true := by
    intro t ht hstop2
    rw [loop_iter_start sock t "final" samples reduction false env2 hstop2]
    obtain ⟨hm, -, -, -, hc, hf, -⟩ := start_rendering_final_fields t samples reduction ht
    rw [render_section_not_ready _ env2 (by rw [hm]; decide) hc]
    exact ⟨hm, hf⟩
  have c1 : (loop_iter sock s (msgIn ClientMsg.cancel b env)).render_mode
      = RenderMode.RM_IDLE := by rw [key]
  have c2 : (loop_iter sock s (msgIn ClientMsg.cancel b env)).render_future = none := by
    rw [key]
  have c3 : (loop_iter sock s (msgIn ClientMsg.cancel b env)).released
      = s.released ++ [f.id] := by rw [key]
  have c4 : (loop_iter sock s (msgIn ClientMsg.cancel b env)).cancel_rendering = false := by
    rw [key]
  have c5 : (loop_iter sock s (msgIn ClientMsg.cancel b env)).sent
      = s.sent ++ [SentMsg.mk { s.render_result with rtype := RRType.CANCELED } false] := by
    rw [key]
  have c6 : (loop_iter sock s (msgIn ClientMsg.cancel b env)).stopped = none := by
    rw [key]; exact hstop
  exact ⟨c1, c2, c3, c4, c5, c6, (general _ c1 c6).1, (general _ c1 c6).2⟩

/-- The render state right after starting a 3-sample final render on the
fixture connection state (future handle 2 over framebuffer 1). -/
def busyRender : RenderState :=
  loop_iter 5 idleRender (msgIn (ClientMsg.start "final" 3 1) false env0)

/-- C6 witness: the cancellation contract evaluated on a concrete in-flight
final render. -/
theorem c6_cancel_mid_render_witness :
    (loop_iter 5 busyRender (msgIn ClientMsg.cancel false env0)).render_mode
        = RenderMode.RM_IDLE ∧
    (loop_iter 5 busyRender (msgIn ClientMsg.cancel false env0)).released
        = busyRender.released ++ [2] ∧
    (loop_iter 5 busyRender (msgIn ClientMsg.cancel false env0)).sent
        = busyRender.sent ++
          [SentMsg.mk { busyRender.render_result with rtype := RRType.CANCELED } false] ∧
    (loop_iter 5 (loop_iter 5 busyRender (msgIn ClientMsg.cancel false env0))
        (msgIn (ClientMsg.start "final" 4 1) false env0)).render_mode
        = RenderMode.RM_FINAL := by
  have h := c6_cancel_mid_render 5 busyRender (InFlight.mk 2 1) false env0 4 1 env0
    (by decide) (by decide) (by decide)
  exact ⟨h.1, h.2.2.1, h.2.2.2.2.1, h.2.2.2.2.2.2.1⟩

/-- C7.  Progressive interactive refinement: (1) an interactive start at
reduction factor R enters interactive mode at factor R, sample 1, rendering
the first frame into the framebuffer stored for factor R; (2) after a
completed frame at factor f > 1 the factor becomes f >> 1, the sample
counter does not advance, accumulation is restarted on the framebuffer at
the finer factor and the next frame is fired at it; (3) at factor 1 with
samples remaining, a completed frame advances the sample counter by one,
like final mode; (4) at factor 1 on the last sample the session finishes
and returns to idle. -/
theorem c7_interactive_progressive_refinement :
    (∀ (s : RenderState) (N R : Nat), s.render_mode = RenderMode.RM_IDLE → 1 ≤ R →
      (start_rendering s "interactive" N R).render_mode = RenderMode.RM_INTERACTIVE ∧
      (start_rendering s "interactive" N R).framebuffer_reduction_factor = R ∧
      (start_rendering s "interactive" N R).current_sample = 1 ∧
      (start_rendering s "interactive" N R).render_future.map InFlight.fb =
        some (fbAt (start_rendering s "interactive" N R).framebuffers R)) ∧
    (∀ (sock : Nat) (s : RenderState) (env : FrameEnv),
      s.render_mode = RenderMode.RM_INTERACTIVE → s.stopped = none →
      s.cancel_rendering = false → 1 < s.framebuffer_reduction_factor →
      (loop_iter sock s (tickIn true env)).framebuffer_reduction_factor
        = s.framebuffer_reduction_factor >>> 1 ∧
      (loop_iter sock s (tickIn true env)).current_sample = s.current_sample ∧
      (loop_iter sock s (tickIn true env)).accum_resets
        = s.accum_resets ++ [fbAt s.framebuffers (s.framebuffer_reduction_factor >>> 1)] ∧
      (loop_iter sock s (tickIn true env)).render_future.map InFlight.fb
        = some (fbAt s.framebuffers (s.framebuffer_reduction_factor >>> 1)) ∧
      (loop_iter sock s (tickIn true env)).render_mode = RenderMode.RM_INTERACTIVE) ∧
    (∀ (sock : Nat) (s : RenderState) (env : FrameEnv),
      s.render_mode = RenderMode.RM_INTERACTIVE → s.stopped = none →
      s.cancel_rendering = false → s.framebuffer_reduction_factor = 1 →
      s.current_sample < s.render_samples →
      (loop_iter sock s (tickIn true env)).current_sample = s.current_sample + 1 ∧
      (loop_iter sock s (tickIn true env)).framebuffer_reduction_factor = 1 ∧
      (loop_iter sock s (tickIn true env)).render_mode = RenderMode.RM_INTERACTIVE) ∧
    (∀ (sock : Nat) (s : RenderState) (env : FrameEnv),
      s.render_mode = RenderMode.RM_INTERACTIVE → s.stopped = none →
      s.cancel_rendering = false → s.framebuffer_reduction_factor = 1 →
      s.current_sample = s.render_samples →
      (loop_iter sock s (tickIn true env)).render_mode = RenderMode.RM_IDLE ∧
      (loop_iter sock s (tickIn true env)).render_future = none) := by
  refine ⟨?_, ?_, ?_, ?_⟩
  · intro s N R hidle hR
    obtain ⟨h1, -, h3, h4, -, h6, -⟩ :=
      start_rendering_interactive_fields s N R hidle
    exact ⟨h1, h4, h3, h6⟩
  · intro sock s env hmode hstop hcancel hf
    rw [loop_iter_tick sock s true env hstop]
    have h1 : s.framebuffer_reduction_factor ≠ 1 := by omega
    simp [render_section, hmode, hcancel, frame_path, h1, hf]
  · intro sock s env hmode hstop hcancel hfac hlt
    rw [loop_iter_tick sock s true env hstop]
    have h1 : s.current_sample ≠ s.render_samples := Nat.ne_of_lt hlt
    simp [render_section, hmode, hcancel, frame_path, h1, hfac]
  · intro sock s env hmode hstop hcancel hfac hsam
    rw [loop_iter_tick sock s true env hstop]
    simp [render_section, hmode, hcancel, frame_path, hfac, hsam]

/-- Interactive render just started at reduction factor 4, 2 samples. -/
def interStart : RenderState :=
  loop_iter 7 idleRender (msgIn (ClientMsg.start "interactive" 2 4) false env0)

/-- The same session after two completed frames: factor refined 4 to 2 to 1,
sample counter still 1. -/
def interState : RenderState :=
  loop_iter 7 (loop_iter 7 interStart (tickIn true env0)) (tickIn true env0)

/-- The same session after one full-resolution sample: sample 2 of 2. -/
def interDone : RenderState :=
  loop_iter 7 interState (tickIn true env0)

/-- C7 witness: the four parts of the refinement contract evaluated along a
concrete interactive session (R = 4, 2 samples). -/
theorem c7_interactive_progressive_refinement_witness :
    (start_rendering idleRender "interactive" 2 4).render_mode
        = RenderMode.RM_INTERACTIVE ∧
    (loop_iter 7 interStart (tickIn true env0)).framebuffer_reduction_factor = 2 ∧
    (loop_iter 7 interState (tickIn true env0)).current_sample = 2 ∧
    (loop_iter 7 interDone (tickIn true env0)).render_mode = RenderMode.RM_IDLE := by
  have h := c7_interactive_progressive_refinement
  refine ⟨?_, ?_, ?_, ?_⟩
  · exact (h.1 idleRender 2 4 (by decide) (by decide)).1
  · exact ((h.2.1 7 interStart env0 (by decide) (by decide) (by decide) (by decide)).1).trans
      (by decide)
  · exact ((h.2.2.1 7 interState env0 (by decide) (by decide) (by decide) (by decide)
      (by decide)).1).trans (by decide)
  · exact (h.2.2.2 7 interDone env0 (by decide) (by decide) (by decide) (by decide)
      (by decide)).1

/-! Helper lemmas for the plugin-instance cache claims. -/

theorem delete_plugin_instance_current (s : ServerState) (n : String) :
    (delete_plugin_instance s n).current_renderer_type = s.current_renderer_type := by
  unfold delete_plugin_instance
  split <;> rfl

theorem scene_data_with_type_exists_eq_true (s : ServerState) (n : String)
    (t : SceneDataType) :
    scene_data_with_type_exists s n t = true ↔ mget s.scene_data_types n = some t := by
  unfold scene_data_with_type_exists
  rcases hm : mget s.scene_data_types n with _ | t2 <;> simp [hm]

/-- An up-to-date cached instance (same kind, plugin name, hashes, and
renderer type when it matters) makes the cache check report a hit without
touching the state. -/
theorem plugin_cache_check_hit (hash : String → String) (s : ServerState)
    (u : UpdatePluginInstance) (pi2 : PluginInstance)
    (hdt : mget s.scene_data_types u.name = some SceneDataType.SDT_PLUGIN)
    (hpi : mget s.plugin_instances u.name = some pi2)
    (hty : pi2.type = u.type) (hpn : pi2.plugin_name = u.plugin_name)
    (hph : hash u.plugin_parameters = pi2.parameters_hash)
    (hch : hash u.custom_properties = pi2.custom_properties_hash)
    (hrt : pi2.state.uses_renderer_type = true →
      pi2.state.renderer = s.current_renderer_type) :
    plugin_cache_check hash s u = (false, s) := by
  have hcond : ¬(pi2.state.uses_renderer_type = true ∧
      pi2.state.renderer ≠ s.current_renderer_type) := fun h => h.2 (hrt h.1)
  unfold plugin_cache_check
  simp [scene_data_with_type_exists, hdt, hpi, hty, hpn, hph, hch, hcond]

/-- Conversely, a cache hit only happens when the stored instance matches
the update on every checked component, and leaves the state unchanged. -/
theorem plugin_cache_check_false (hash : String → String) (s : ServerState)
    (u : UpdatePluginInstance) (t : ServerState)
    (h : plugin_cache_check hash s u = (false, t)) :
    t = s ∧ mget s.scene_data_types u.name = some SceneDataType.SDT_PLUGIN ∧
    ∃ pi2, mget s.plugin_instances u.name = some pi2 ∧ pi2.type = u.type ∧
      pi2.plugin_name = u.plugin_name ∧ pi2.parameters_hash = hash u.plugin_parameters ∧
      pi2.custom_properties_hash = hash u.custom_properties ∧
      (pi2.state.uses_renderer_type = true →
        pi2.state.renderer = s.current_renderer_type) := by
  unfold plugin_cache_check at h
  split at h
  case isFalse => simp at h
  case isTrue hex =>
    have hdt := (scene_data_with_type_exists_eq_true s u.name SceneDataType.SDT_PLUGIN).1 hex
    split at h
    case h_1 => simp at h
    case h_2 pi2 hpi =>
      split at h
      case isTrue => simp at h
      case isFalse hg1 =>
        split at h
        case isTrue => simp at h
        case isFalse hg2 =>
          split at h
          case isTrue => simp at h
          case isFalse hg3 =>
            split at h
            case isTrue => simp at h
            case isFalse hg4 =>
              obtain ⟨-, ht⟩ := Prod.mk.injEq .. ▸ h
              push_neg at hg1 hg2 hg3 hg4
              exact ⟨ht.symm, hdt,
                pi2, hpi, hg1.1, hg1.2, hg2.symm, hg3.symm, fun hu => hg4 hu⟩

theorem ensure_plugin_is_loaded_preserves (lib : PluginLib) (s : ServerState)
    (r : GenerateFunctionResult) (t : PluginType) (n : String) (d : PluginDefinition)
    (s2 : ServerState) (h : ensure_plugin_is_loaded lib s r t n = .loaded d s2) :
    s2.current_renderer_type = s.current_renderer_type ∧
    s2.plugin_instances = s.plugin_instances ∧
    s2.plugin_state = s.plugin_state ∧
    s2.scene_data_types = s.scene_data_types ∧
    s2.blender_meshes = s.blender_meshes ∧
    s2.released = s.released := by
  unfold ensure_plugin_is_loaded at h
  split at h
  · cases h
  · split at h
    · cases h
      exact ⟨rfl, rfl, rfl, rfl, rfl, rfl⟩
    · split at h
      · cases h
      · cases h
        exact ⟨rfl, rfl, rfl, rfl, rfl, rfl⟩

/-- A cache hit makes the whole handler a no-op success that skips the
generate entry point. -/
theorem hupi_cache_hit (lib : PluginLib) (hash : String → String) (s : ServerState)
    (u : UpdatePluginInstance) (pi2 : PluginInstance)
    (hdt : mget s.scene_data_types u.name = some SceneDataType.SDT_PLUGIN)
    (hpi : mget s.plugin_instances u.name = some pi2)
    (hty : pi2.type = u.type) (hpn : pi2.plugin_name = u.plugin_name)
    (hph : hash u.plugin_parameters = pi2.parameters_hash)
    (hch : hash u.custom_properties = pi2.custom_properties_hash)
    (hrt : pi2.state.uses_renderer_type = true →
      pi2.state.renderer = s.current_renderer_type) :
    handle_update_plugin_instance lib hash s u =
      { s := s, ret := true, sent := { success := true, message := "" },
        generate_called := false, check_errors := [] } := by
  unfold handle_update_plugin_instance
  rw [plugin_cache_check_hit hash s u pi2 hdt hpi hty hpn hph hch hrt]

/-- Any successful handler call (cache hit or fresh store) leaves the store
holding an instance under the update name that matches the update on kind,
plugin name, both hashes, and (when renderer-sensitive) the current renderer
type; this is what makes an immediately repeated identical call a cache
hit. -/
theorem hupi_ret_true_conditions (lib : PluginLib) (hash : String → String)
    (s : ServerState) (u : UpdatePluginInstance)
    (hgen : ∀ st, (lib.generate st).2.renderer = st.renderer ∧
      (lib.generate st).2.uses_renderer_type = st.uses_renderer_type)
    (hret : (handle_update_plugin_instance lib hash s u).ret = true) :
    mget (handle_update_plugin_instance lib hash s u).s.scene_data_types u.name
      = some SceneDataType.SDT_PLUGIN ∧
    ∃ pi2, mget (handle_update_plugin_instance lib hash s u).s.plugin_instances u.name
        = some pi2 ∧
      pi2.type = u.type ∧ pi2.plugin_name = u.plugin_name ∧
      pi2.parameters_hash = hash u.plugin_parameters ∧
      pi2.custom_properties_hash = hash u.custom_properties ∧
      (pi2.state.uses_renderer_type = true →
        pi2.state.renderer
          = (handle_update_plugin_instance lib hash s u).s.current_renderer_type) := by
  rcases hcc : plugin_cache_check hash s u with ⟨b, s1⟩
  cases b
  · have hout : handle_update_plugin_instance lib hash s u =
        { s := s1, ret := true, sent := { success := true, message := "" },
          generate_called := false, check_errors := [] } := by
      unfold handle_update_plugin_instance
      rw [hcc]
    obtain ⟨hts, hdt, pi2, hpi, hty, hpn, hph, hch, hrt⟩ :=
      plugin_cache_check_false hash s u s1 hcc
    rw [hout]
    subst hts
    exact ⟨hdt, pi2, hpi, hty, hpn, hph, hch, hrt⟩
  · rcases hen : ensure_plugin_is_loaded lib s1 { success := true, message := "" }
        u.type u.plugin_name with r | ⟨d, s2⟩
    · have : (handle_update_plugin_instance lib hash s u).ret = false := by
        simp [handle_update_plugin_instance, hupi_create_path, hcc, hen]
      rw [this] at hret
      cases hret
    · by_cases hgf : d.has_generate_function = false
      · have : (handle_update_plugin_instance lib hash s u).ret = false := by
          simp [handle_update_plugin_instance, hupi_create_path, hcc, hen, hgf]
        rw [this] at hret
        cases hret
      · by_cases hok :
            (check_plugin_parameters d.parameters u.parsed_parameters).1 = false
        · have : (handle_update_plugin_instance lib hash s u).ret = false := by
            simp [handle_update_plugin_instance, hupi_create_path, hcc, hen, hgf, hok]
          rw [this] at hret
          cases hret
        · by_cases hrs :
              (lib.generate (initial_plugin_state s2 d u.parsed_parameters)).1.success
                = false
          · have : (handle_update_plugin_instance lib hash s u).ret = false := by
              simp [handle_update_plugin_instance, hupi_create_path, hcc, hen, hgf,
                hok, hrs]
            rw [this] at hret
            cases hret
          · have hstr :
                (lib.generate (initial_plugin_state s2 d u.parsed_parameters)).2.renderer
                  = s2.current_renderer_type :=
              (hgen (initial_plugin_state s2 d u.parsed_parameters)).1
            rcases hut : u.type with _ | _ | _ <;> rw [hut] at hen
            · by_cases hgo :
                  (lib.generate (initial_plugin_state s2 d u.parsed_parameters)).2.geometry
                    = none
              · have : (handle_update_plugin_instance lib hash s u).ret = false := by
                  simp [handle_update_plugin_instance, hupi_create_path, hcc, hen, hgf,
                    hok, hrs, hut, hgo]
                rw [this] at hret
                cases hret
              · have hout : handle_update_plugin_instance lib hash s u =
                    { s := { s2 with
                        plugin_instances := mset s2.plugin_instances u.name
                          { name := u.name, type := u.type,
                            plugin_name := u.plugin_name,
                            parameters_hash := hash u.plugin_parameters,
                            custom_properties_hash := hash u.custom_properties,
                            state := (lib.generate
                              (initial_plugin_state s2 d u.parsed_parameters)).2 },
                        plugin_state := mset s2.plugin_state u.name
                          (lib.generate
                            (initial_plugin_state s2 d u.parsed_parameters)).2,
                        scene_data_types := mset s2.scene_data_types u.name
                          SceneDataType.SDT_PLUGIN },
                      ret := true,
                      sent := (lib.generate
                        (initial_plugin_state s2 d u.parsed_parameters)).1,
                      generate_called := true, check_errors := [] } := by
                  simp [handle_update_plugin_instance, hupi_create_path, hcc, hen, hgf,
                    hok, hrs, hut, hgo]
                rw [hout]
                refine ⟨by rw [mget_mset_self], ?_⟩
                exact ⟨_, by rw [mget_mset_self], hut, rfl, rfl, rfl,
                  fun _ => hstr⟩
            · by_cases hgo :
                  (lib.generate (initial_plugin_state s2 d u.parsed_parameters)).2.volume
                    = none
              · have : (handle_update_plugin_instance lib hash s u).ret = false := by
                  simp [handle_update_plugin_instance, hupi_create_path, hcc, hen, hgf,
                    hok, hrs, hut, hgo]
                rw [this] at hret
                cases hret
              · have hout : handle_update_plugin_instance lib hash s u =
                    { s := { s2 with
                        plugin_instances := mset s2.plugin_instances u.name
                          { name := u.name, type := u.type,
                            plugin_name := u.plugin_name,
                            parameters_hash := hash u.plugin_parameters,
                            custom_properties_hash := hash u.custom_properties,
                            state := (lib.generate
                              (initial_plugin_state s2 d u.parsed_parameters)).2 },
                        plugin_state := mset s2.plugin_state u.name
                          (lib.generate
                            (initial_plugin_state s2 d u.parsed_parameters)).2,
                        scene_data_types := mset s2.scene_data_types u.name
                          SceneDataType.SDT_PLUGIN },
                      ret := true,
                      sent := (lib.generate
                        (initial_plugin_state s2 d u.parsed_parameters)).1,
                      generate_called := true, check_errors := [] } := by
                  simp [handle_update_plugin_instance, hupi_create_path, hcc, hen, hgf,
                    hok, hrs, hut, hgo]
                rw [hout]
                refine ⟨by rw [mget_mset_self], ?_⟩
                exact ⟨_, by rw [mget_mset_self], hut, rfl, rfl, rfl,
                  fun _ => hstr⟩
            · have hout : handle_update_plugin_instance lib hash s u =
                  { s := { s2 with
                      plugin_instances := mset s2.plugin_instances u.name
                        { name := u.name, type := u.type,
                          plugin_name := u.plugin_name,
                          parameters_hash := hash u.plugin_parameters,
                          custom_properties_hash := hash u.custom_properties,
                          state := (lib.generate
                            (initial_plugin_state s2 d u.parsed_parameters)).2 },
                      plugin_state := mset s2.plugin_state u.name
                        (lib.generate
                          (initial_plugin_state s2 d u.parsed_parameters)).2,
                      scene_data_types := mset s2.scene_data_types u.name
                        SceneDataType.SDT_PLUGIN },
                    ret := true,
                    sent := (lib.generate
                      (initial_plugin_state s2 d u.parsed_parameters)).1,
                    generate_called := true, check_errors := [] } := by
                simp [handle_update_plugin_instance, hupi_create_path, hcc, hen, hgf,
                  hok, hrs, hut]
              rw [hout]
              refine ⟨by rw [mget_mset_self], ?_⟩
              exact ⟨_, by rw [mget_mset_self], hut, rfl, rfl, rfl,
                fun _ => hstr⟩

/-- C1.  First part: an update-plugin-instance call against an existing
entity of the same kind and plugin name whose parameter and custom-property
hashes match and whose recorded renderer type matches the current one (when
the plugin is renderer-sensitive) stores nothing (the state is returned
unchanged), never invokes the generate entry point, and replies with a
success result.  Second part: after any successful call, the immediately
repeated identical call is such a cache hit (for plugins whose generate
function does not rewrite the renderer bookkeeping fields of its state),
hence a no-op. -/
theorem c1_plugin_instance_cache_hit :
    (∀ (lib : PluginLib) (hash : String → String) (s : ServerState)
        (u : UpdatePluginInstance) (pi2 : PluginInstance),
      mget s.scene_data_types u.name = some SceneDataType.SDT_PLUGIN →
      mget s.plugin_instances u.name = some pi2 →
      pi2.type = u.type → pi2.plugin_name = u.plugin_name →
      hash u.plugin_parameters = pi2.parameters_hash →
      hash u.custom_properties = pi2.custom_properties_hash →
      (pi2.state.uses_renderer_type = true →
        pi2.state.renderer = s.current_renderer_type) →
      (handle_update_plugin_instance lib hash s u).s = s ∧
      (handle_update_plugin_instance lib hash s u).generate_called = false ∧
      (handle_update_plugin_instance lib hash s u).ret = true ∧
      (handle_update_plugin_instance lib hash s u).sent.success = true) ∧
    (∀ (lib : PluginLib) (hash : String → String) (s : ServerState)
        (u : UpdatePluginInstance),
      (∀ st, (lib.generate st).2.renderer = st.renderer ∧
        (lib.generate st).2.uses_renderer_type = st.uses_renderer_type) →
      (handle_update_plugin_instance lib hash s u).ret = true →
      (handle_update_plugin_instance lib hash
          (handle_update_plugin_instance lib hash s u).s u).s
        = (handle_update_plugin_instance lib hash s u).s ∧
      (handle_update_plugin_instance lib hash
          (handle_update_plugin_instance lib hash s u).s u).generate_called = false ∧
      (handle_update_plugin_instance lib hash
          (handle_update_plugin_instance lib hash s u).s u).ret = true ∧
      (handle_update_plugin_instance lib hash
          (handle_update_plugin_instance lib hash s u).s u).sent.success = true) := by
  constructor
  · intro lib hash s u pi2 hdt hpi hty hpn hph hch hrt
    rw [hupi_cache_hit lib hash s u pi2 hdt hpi hty hpn hph hch hrt]
    exact ⟨rfl, rfl, rfl, rfl⟩
  · intro lib hash s u hgen hret
    obtain ⟨hdt, pi2, hpi, hty, hpn, hph, hch, hrt⟩ :=
      hupi_ret_true_conditions lib hash s u hgen hret
    rw [hupi_cache_hit lib hash (handle_update_plugin_instance lib hash s u).s u pi2
      hdt hpi hty hpn hph.symm hch.symm hrt]
    exact ⟨rfl, rfl, rfl, rfl⟩

/-- A stored scene plugin instance under name `d`, renderer-sensitive,
matching the current renderer type. -/
def c1PluginState : PluginState :=
  { renderer := "scivis", uses_renderer_type := true, parameters := [],
    geometry := none, volume := none, group_instances := [(77, 0)], lights := [],
    bound := none }

def c1Instance : PluginInstance :=
  { name := "d", type := PluginType.PT_SCENE, plugin_name := "boxes",
    parameters_hash := "P0", custom_properties_hash := "C0", state := c1PluginState }

def c1Server : ServerState :=
  { emptyServer with plugin_instances := [("d", c1Instance)],
                     plugin_state := [("d", c1PluginState)],
                     scene_data_types := [("d", SceneDataType.SDT_PLUGIN)] }

/-- A parameterless scene plugin definition with a generate entry point. -/
def c1Defn : PluginDefinition :=
  { uses_renderer_type := false, parameters := [], has_generate_function := true }

/-- A scene plugin library whose generate function adds one group instance
and leaves the renderer bookkeeping fields alone. -/
def c1Lib : PluginLib :=
  { load := fun _ => LoadOutcome.ok c1Defn,
    generate := fun st => ({ success := true, message := "" },
      { st with group_instances := [(77, 0)] }) }

def c1Update : UpdatePluginInstance :=
  { name := "d", type := PluginType.PT_SCENE, plugin_name := "boxes",
    plugin_parameters := "P0", custom_properties := "C0", parsed_parameters := [] }

/-- C1 witness: the cache-hit contract at a concrete matching store (with
the identity digest), and the second-of-two-identical-calls contract along a
concrete first call that generates and stores. -/
theorem c1_plugin_instance_cache_hit_witness :
    ((handle_update_plugin_instance c1Lib (fun x => x) c1Server c1Update).s
        = c1Server ∧
     (handle_update_plugin_instance c1Lib (fun x => x) c1Server c1Update).generate_called
        = false ∧
     (handle_update_plugin_instance c1Lib (fun x => x) c1Server c1Update).ret = true ∧
     (handle_update_plugin_instance c1Lib (fun x => x) c1Server c1Update).sent.success
        = true) ∧
    ((handle_update_plugin_instance c1Lib (fun x => x)
        (handle_update_plugin_instance c1Lib (fun x => x) emptyServer c1Update).s
        c1Update).s
      = (handle_update_plugin_instance c1Lib (fun x => x) emptyServer c1Update).s ∧
     (handle_update_plugin_instance c1Lib (fun x => x)
        (handle_update_plugin_instance c1Lib (fun x => x) emptyServer c1Update).s
        c1Update).generate_called = false ∧
     (handle_update_plugin_instance c1Lib (fun x => x)
        (handle_update_plugin_instance c1Lib (fun x => x) emptyServer c1Update).s
        c1Update).ret = true ∧
     (handle_update_plugin_instance c1Lib (fun x => x)
        (handle_update_plugin_instance c1Lib (fun x => x) emptyServer c1Update).s
        c1Update).sent.success = true) := by
  constructor
  · exact c1_plugin_instance_cache_hit.1 c1Lib (fun x => x) c1Server c1Update c1Instance
      (by decide) (by decide) (by decide) (by decide) (by decide) (by decide)
      (fun _ => by decide)
  · exact c1_plugin_instance_cache_hit.2 c1Lib (fun x => x) emptyServer c1Update
      (fun st => ⟨rfl, rfl⟩) (by decide)

/-- A raw mesh stored under name `d` (triangle geometry handle 5). -/
def meshServer : ServerState :=
  { emptyServer with
      blender_meshes :=
        [("d", { name := "", num_vertices := 8, num_triangles := 12, geometry := some 5 })],
      scene_data_types := [("d", SceneDataType.SDT_MESH)],
      plugin_definitions := [("scene_boxes", c1Defn)] }

/-- C4 counterexample: a plugin-instance update under a name currently
holding a raw mesh succeeds and overwrites the kind entry, but the old mesh
entity survives in the mesh catalog and nothing of it is released — the
claimed destroy-before-store does not happen in this direction. -/
theorem c4_counterexample_mesh_survives_plugin_upsert :
    (handle_update_plugin_instance c1Lib (fun x => x) meshServer c1Update).ret = true ∧
    mget (handle_update_plugin_instance c1Lib (fun x => x) meshServer
        c1Update).s.scene_data_types "d" = some SceneDataType.SDT_PLUGIN ∧
    (mget (handle_update_plugin_instance c1Lib (fun x => x) meshServer
        c1Update).s.blender_meshes "d").isSome = true ∧
    (handle_update_plugin_instance c1Lib (fun x => x) meshServer
        c1Update).s.released = meshServer.released := by
  decide

/-- C4 (amended).  Cross-kind overwrite of a data name is asymmetric.
Part 1: a raw-mesh update under a name holding a plugin-generated entity
destroys the old entity first — its renderer resources are released and its
entries are erased from all plugin catalogs — and then stores the new mesh
under the name (as the claim states).  Part 2: a plugin-instance update that
stores successfully under a name holding a raw mesh does NOT destroy the
old entity: nothing is released, the mesh catalog entry survives untouched,
and only the kind map is overwritten to the plugin kind. -/
theorem c4_cross_kind_overwrite :
    (∀ (s : ServerState) (name : String) (md : MeshData) (pi2 : PluginInstance),
      mget s.scene_data_types name = some SceneDataType.SDT_PLUGIN →
      mget s.plugin_instances name = some pi2 →
      md.num_vertices ≠ 0 → md.num_triangles ≠ 0 →
      (handle_update_blender_mesh_data s name md).1 = true ∧
      mget (handle_update_blender_mesh_data s name md).2.plugin_instances name = none ∧
      mget (handle_update_blender_mesh_data s name md).2.plugin_state name = none ∧
      mget (handle_update_blender_mesh_data s name md).2.scene_data_types name
        = some SceneDataType.SDT_MESH ∧
      (mget (handle_update_blender_mesh_data s name md).2.blender_meshes name).isSome
        = true ∧
      (∀ h, h ∈ plugin_resource_handles pi2 →
        h ∈ (handle_update_blender_mesh_data s name md).2.released)) ∧
    (∀ (lib : PluginLib) (hash : String → String) (s : ServerState)
        (u : UpdatePluginInstance) (d : PluginDefinition),
      mget s.scene_data_types u.name = some SceneDataType.SDT_MESH →
      u.plugin_name ≠ "" →
      mget s.plugin_definitions (internal_plugin_name u.type u.plugin_name) = some d →
      d.has_generate_function = true →
      (check_plugin_parameters d.parameters u.parsed_parameters).1 = true →
      (lib.generate (initial_plugin_state s d u.parsed_parameters)).1.success = true →
      (match u.type with
       | PluginType.PT_GEOMETRY =>
         (lib.generate (initial_plugin_state s d u.parsed_parameters)).2.geometry ≠ none
       | PluginType.PT_VOLUME =>
         (lib.generate (initial_plugin_state s d u.parsed_parameters)).2.volume ≠ none
       | PluginType.PT_SCENE => True) →
      (handle_update_plugin_instance lib hash s u).ret = true ∧
      mget (handle_update_plugin_instance lib hash s u).s.scene_data_types u.name
        = some SceneDataType.SDT_PLUGIN ∧
      mget (handle_update_plugin_instance lib hash s u).s.blender_meshes u.name
        = mget s.blender_meshes u.name ∧
      (handle_update_plugin_instance lib hash s u).s.released = s.released) := by
  constructor
  · intro s name md pi2 hdt hpi hnv hnt
    refine ⟨?_, ?_, ?_, ?_, ?_, ?_⟩
    · simp [handle_update_blender_mesh_data, delete_scene_data, delete_plugin_instance,
        hdt, hpi, hnv, hnt]
    · simp [handle_update_blender_mesh_data, delete_scene_data, delete_plugin_instance,
        hdt, hpi, hnv, hnt, mget_mdel_self]
    · simp [handle_update_blender_mesh_data, delete_scene_data, delete_plugin_instance,
        hdt, hpi, hnv, hnt, mget_mdel_self]
    · simp [handle_update_blender_mesh_data, delete_scene_data, delete_plugin_instance,
        hdt, hpi, hnv, hnt, mget_mset_self]
    · simp [handle_update_blender_mesh_data, delete_scene_data, delete_plugin_instance,
        hdt, hpi, hnv, hnt, mget_mset_self]
    · intro h hh
      simp [handle_update_blender_mesh_data, delete_scene_data, delete_plugin_instance,
        hdt, hpi, hnv, hnt, List.mem_append]
      tauto
  · intro lib hash s u d hdt hname hcached hgf hok hsuc hoo
    have hsdt : scene_data_with_type_exists s u.name SceneDataType.SDT_PLUGIN = false := by
      simp [scene_data_with_type_exists, hdt]
    have hcc : plugin_cache_check hash s u = (true, s) := by
      simp [plugin_cache_check, hsdt]
    have hen : ensure_plugin_is_loaded lib s { success := true, message := "" }
        u.type u.plugin_name = .loaded d s := by
      simp [ensure_plugin_is_loaded, hname, hcached]
    have hgf2 : ¬(d.has_generate_function = false) := by simp [hgf]
    have hok2 : ¬((check_plugin_parameters d.parameters u.parsed_parameters).1 = false) := by
      simp [hok]
    have hsuc2 :
        ¬((lib.generate (initial_plugin_state s d u.parsed_parameters)).1.success
          = false) := by
      simp [hsuc]
    rcases hut : u.type with _ | _ | _ <;> rw [hut] at hen hoo <;>
      refine ⟨?_, ?_, ?_, ?_⟩ <;>
      simp [handle_update_plugin_instance, hupi_create_path, hcc, hen, hgf2, hok2,
        hsuc2, hut, hoo, mget_mset_self]

def c4md : MeshData :=
  { num_vertices := 8, num_triangles := 12, has_normals := false,
    has_vertex_colors := false }

/-- C4 witness: both directions of the amended cross-kind contract at
concrete stores — a mesh update over the plugin under `d` destroys the
plugin entity (handle 77 released, catalogs cleared), and a plugin update
over the mesh under `d` releases nothing and leaves the mesh entry. -/
theorem c4_cross_kind_overwrite_witness :
    ((handle_update_blender_mesh_data c1Server "d" c4md).1 = true ∧
     mget (handle_update_blender_mesh_data c1Server "d" c4md).2.plugin_instances "d"
       = none ∧
     mget (handle_update_blender_mesh_data c1Server "d" c4md).2.scene_data_types "d"
       = some SceneDataType.SDT_MESH ∧
     77 ∈ (handle_update_blender_mesh_data c1Server "d" c4md).2.released) ∧
    ((handle_update_plugin_instance c1Lib (fun x => x) meshServer c1Update).ret
       = true ∧
     mget (handle_update_plugin_instance c1Lib (fun x => x) meshServer
         c1Update).s.blender_meshes "d"
       = mget meshServer.blender_meshes "d" ∧
     (handle_update_plugin_instance c1Lib (fun x => x) meshServer
         c1Update).s.released = meshServer.released) := by
  constructor
  · have h := c4_cross_kind_overwrite.1 c1Server "d" c4md c1Instance
      (by decide) (by decide) (by decide) (by decide)
    exact ⟨h.1, h.2.1, h.2.2.2.1, h.2.2.2.2.2 77 (by decide)⟩
  · have h := c4_cross_kind_overwrite.2 c1Lib (fun x => x) meshServer c1Update c1Defn
      (by decide) (by decide) (by decide) (by decide) (by decide) (by decide)
      (by simp [c1Update])
    exact ⟨h.1, h.2.2.1, h.2.2.2⟩

/-! C8: the send trace of a final-mode render session that runs to
completion.  `finalTrace` is the expected suffix of the send trace, computed
from the per-frame renderer observations; `sessionMax` is the largest memory
reading the renderer reports during the session (each frame reading plus the
final done-path reading). -/

/-- The FRAME record `frame_path` builds for the current sample. -/
def frameRec (s : RenderState) (e : FrameEnv) : RenderResultMsg :=
  { rtype := RRType.FRAME, sample := s.current_sample,
    reduction_factor := s.framebuffer_reduction_factor,
    width := s.reduced_framebuffer_width, height := s.reduced_framebuffer_height,
    variance := e.variance, memory_usage := e.mem,
    peak_memory_usage := max s.peak_memory_usage e.mem }

/-- The DONE record `frame_path` builds after the last sample. -/
def doneRec (s : RenderState) (e : FrameEnv) : RenderResultMsg :=
  { frameRec s e with rtype := RRType.DONE, memory_usage := e.done_mem,
                      peak_memory_usage := max (max s.peak_memory_usage e.mem) e.done_mem }

/-- `frame_path` on a non-final sample of a final-mode session: one FRAME
record to the command socket, peak update, sample advance, next frame fired. -/
theorem frame_path_cont (s : RenderState) (e : FrameEnv)
    (hmode : s.render_mode = RenderMode.RM_FINAL)
    (hfac : s.framebuffer_reduction_factor = 1)
    (hne : s.current_sample ≠ s.render_samples) :
    frame_path s e =
      { s with released := s.released ++ (s.render_future.map InFlight.id).toList,
               render_future := some (InFlight.mk s.next_handle (fbAt s.framebuffers 1)),
               peak_memory_usage := max s.peak_memory_usage e.mem,
               render_result := frameRec s e,
               sent := s.sent ++ [SentMsg.mk (frameRec s e) false],
               current_sample := s.current_sample + 1,
               next_handle := s.next_handle + 1 } := by
  simp [frame_path, frameRec, hmode, hfac, hne]

/-- `frame_path` on the last sample of a final-mode session: FRAME record,
then DONE record (second memory reading, destination decided by the
render-output socket), session back to idle with no frame in flight. -/
theorem frame_path_done (s : RenderState) (e : FrameEnv)
    (hmode : s.render_mode = RenderMode.RM_FINAL)
    (hfac : s.framebuffer_reduction_factor = 1)
    (heq : s.current_sample = s.render_samples) :
    frame_path s e =
      { s with released := s.released ++ (s.render_future.map InFlight.id).toList,
               render_future := none,
               peak_memory_usage := max (max s.peak_memory_usage e.mem) e.done_mem,
               render_result := doneRec s e,
               sent := s.sent ++ [SentMsg.mk (frameRec s e) false,
                 SentMsg.mk (doneRec s e) s.render_output_socket.isSome],
               render_mode := RenderMode.RM_IDLE } := by
  simp [frame_path, frameRec, doneRec, hmode, hfac, heq]

/-- Expected send-trace suffix of a final-mode session: one FRAME record per
sample from `k` up, carrying the running peak accumulated into `peak`, and
after the FRAME for sample `N` one DONE record with the done-path memory
reading folded into the peak. -/
def ftFrame (w h k peak : Nat) (e : FrameEnv) : RenderResultMsg :=
  { rtype := RRType.FRAME, sample := k, reduction_factor := 1, width := w, height := h,
    variance := e.variance, memory_usage := e.mem, peak_memory_usage := max peak e.mem }

def ftDone (w h k peak : Nat) (e : FrameEnv) : RenderResultMsg :=
  { rtype := RRType.DONE, sample := k, reduction_factor := 1, width := w, height := h,
    variance := e.variance, memory_usage := e.done_mem,
    peak_memory_usage := max (max peak e.mem) e.done_mem }

def finalTrace (w h : Nat) (outb : Bool) (N : Nat) :
    Nat → Nat → List FrameEnv → List SentMsg
  | _, _, [] => []
  | k, peak, e :: es =>
    if k = N then
      [SentMsg.mk (ftFrame w h k peak e) false, SentMsg.mk (ftDone w h k peak e) outb]
    else
      SentMsg.mk (ftFrame w h k peak e) false
        :: finalTrace w h outb N (k + 1) (max peak e.mem) es

/-- Largest memory reading the renderer reports across a session: every
frame reading, plus the second (done-path) reading of the last frame. -/
def sessionMax : List FrameEnv → Nat
  | [] => 0
  | [e] => max e.mem e.done_mem
  | e :: es => max e.mem (sessionMax es)

theorem sessionMax_cons₂ (e e2 : FrameEnv) (es : List FrameEnv) :
    sessionMax (e :: e2 :: es) = max e.mem (sessionMax (e2 :: es)) := rfl

/-- Running only ready frame ticks from a mid-session final-mode state: the
send trace grows by exactly `finalTrace`, and the session ends idle without
leaving the connection loop, the render-output socket untouched. -/
theorem loop_run_final_ticks (sock w h : Nat) (outb : Bool) (N : Nat) :
    ∀ (envs : List FrameEnv) (k : Nat) (s : RenderState),
      s.render_mode = RenderMode.RM_FINAL →
      s.framebuffer_reduction_factor = 1 →
      s.cancel_rendering = false →
      s.stopped = none →
      s.render_samples = N →
      s.current_sample = k →
      s.reduced_framebuffer_width = w →
      s.reduced_framebuffer_height = h →
      s.render_output_socket.isSome = outb →
      k ≤ N → k + envs.length = N + 1 →
      (loop_run sock s (envs.map (tickIn true))).sent
          = s.sent ++ finalTrace w h outb N k s.peak_memory_usage envs ∧
      (loop_run sock s (envs.map (tickIn true))).render_mode = RenderMode.RM_IDLE ∧
      (loop_run sock s (envs.map (tickIn true))).stopped = none ∧
      (loop_run sock s (envs.map (tickIn true))).render_output_socket
        = s.render_output_socket := by
  intro envs
  induction envs with
  | nil =>
    intro k s _ _ _ _ _ _ _ _ _ hk hlen
    simp at hlen
    omega
  | cons e es ih =>
    intro k s hmode hfac hcancel hstop hsam hcs hrw hrh hros hk hlen
    have hiter : loop_iter sock s (tickIn true e) = frame_path s e := by
      rw [loop_iter_tick sock s true e hstop]
      simp [render_section, hmode, hcancel]
    have hrun : loop_run sock s ((e :: es).map (tickIn true))
        = loop_run sock (frame_path s e) (es.map (tickIn true)) := by
      simp [loop_run, hiter]
    by_cases hkN : k = N
    · subst hkN
      have hes : es = [] := by
        have hlen2 : es.length = 0 := by
          simp only [List.length_cons] at hlen
          omega
        exact List.length_eq_zero.mp hlen2
      subst hes
      have hfp := frame_path_done s e hmode hfac (by rw [hcs, hsam])
      rw [hrun]
      simp [loop_run, hfp, finalTrace, frameRec, doneRec, ftFrame, ftDone,
        hcs, hsam, hfac, hrw, hrh, hros, hstop]
    · have hklt : k < N := lt_of_le_of_ne hk hkN
      have hne : s.current_sample ≠ s.render_samples := by
        rw [hcs, hsam]; exact hkN
      have hfp := frame_path_cont s e hmode hfac hne
      have hlen2 : (k + 1) + es.length = N + 1 := by
        simp at hlen; omega
      obtain ⟨hsent, hmode2, hstop2, hros2⟩ :=
        ih (k + 1) (frame_path s e)
          (by rw [hfp]; simpa using hmode)
          (by rw [hfp]; simpa using hfac)
          (by rw [hfp]; simpa using hcancel)
          (by rw [hfp]; simpa using hstop)
          (by rw [hfp]; simpa using hsam)
          (by rw [hfp]; simp [hcs])
          (by rw [hfp]; simpa using hrw)
          (by rw [hfp]; simpa using hrh)
          (by rw [hfp]; simpa using hros)
          hklt hlen2
      rw [hrun]
      refine ⟨?_, hmode2, hstop2, ?_⟩
      · rw [hsent, hfp]
        simp [finalTrace, hkN, frameRec, ftFrame, hcs, hfac, hrw, hrh]
      · rw [hros2, hfp]

theorem finalTrace_ne_nil (w h : Nat) (outb : Bool) (N k peak : Nat) (e : FrameEnv)
    (es : List FrameEnv) : finalTrace w h outb N k peak (e :: es) ≠ [] := by
  by_cases hkN : k = N <;> simp [finalTrace, hkN]

theorem finalTrace_cons_ne (w h : Nat) (outb : Bool) (N k peak : Nat) (e : FrameEnv)
    (es : List FrameEnv) (hkN : k ≠ N) :
    finalTrace w h outb N k peak (e :: es)
      = SentMsg.mk (ftFrame w h k peak e) false
          :: finalTrace w h outb N (k + 1) (max peak e.mem) es := by
  simp [finalTrace, hkN]

/-- Record-kind and sample-index shape of `finalTrace`: FRAME records with
consecutive samples `k, k+1, ..., N`, then a single DONE record at sample
`N`. -/
theorem finalTrace_shape (w h : Nat) (outb : Bool) (N : Nat) :
    ∀ (envs : List FrameEnv) (k peak : Nat), k ≤ N → k + envs.length = N + 1 →
      (finalTrace w h outb N k peak envs).map (fun m => (m.msg.rtype, m.msg.sample))
        = (List.range' k (N + 1 - k)).map (fun i => (RRType.FRAME, i))
            ++ [(RRType.DONE, N)] := by
  intro envs
  induction envs with
  | nil =>
    intro k peak hk hlen
    simp at hlen
    omega
  | cons e es ih =>
    intro k peak hk hlen
    by_cases hkN : k = N
    · have hone : N + 1 - N = 1 := by omega
      simp [finalTrace, hkN, ftFrame, ftDone, hone, List.range']
    · have hklt : k < N := lt_of_le_of_ne hk hkN
      have hsplit : N + 1 - k = (N + 1 - (k + 1)) + 1 := by omega
      have hlen2 : (k + 1) + es.length = N + 1 := by
        simp only [List.length_cons] at hlen
        omega
      rw [hsplit]
      simp only [finalTrace, hkN, if_false, List.map_cons, List.range']
      rw [ih (k + 1) (max peak e.mem) hklt hlen2]
      simp [ftFrame]

/-- The peak field of the last record of `finalTrace` (the DONE record) is
the incoming peak joined with the largest session memory reading. -/
theorem finalTrace_peak (w h : Nat) (outb : Bool) (N : Nat) :
    ∀ (envs : List FrameEnv) (k peak : Nat), k ≤ N → k + envs.length = N + 1 →
      ((finalTrace w h outb N k peak envs).map
          (fun m => m.msg.peak_memory_usage)).getLast?
        = some (max peak (sessionMax envs)) := by
  intro envs
  induction envs with
  | nil =>
    intro k peak hk hlen
    simp at hlen
    omega
  | cons e es ih =>
    intro k peak hk hlen
    by_cases hkN : k = N
    · have hes : es = [] := by
        have hlen2 : es.length = 0 := by
          simp only [List.length_cons] at hlen
          omega
        exact List.length_eq_zero.mp hlen2
      subst hes
      simp [finalTrace, hkN, ftFrame, ftDone, sessionMax, Nat.max_assoc]
    · have hklt : k < N := lt_of_le_of_ne hk hkN
      obtain ⟨e2, es2, hes⟩ : ∃ e2 es2, es = e2 :: es2 := by
        cases es with
        | nil =>
          simp only [List.length_cons, List.length_nil] at hlen
          omega
        | cons a l => exact ⟨a, l, rfl⟩
      subst hes
      have hlen2 : (k + 1) + (e2 :: es2).length = N + 1 := by
        simp only [List.length_cons] at hlen ⊢
        omega
      have hih := ih (k + 1) (max peak e.mem) hklt hlen2
      have hnn := finalTrace_ne_nil w h outb N (k + 1) (max peak e.mem) e2 es2
      obtain ⟨t0, T, hT⟩ := List.exists_cons_of_ne_nil hnn
      rw [finalTrace_cons_ne w h outb N k peak e (e2 :: es2) hkN, hT,
        List.map_cons, List.map_cons, List.getLast?_cons_cons]
      show (List.map (fun m => m.msg.peak_memory_usage) (t0 :: T)).getLast?
        = some (max peak (sessionMax (e :: e2 :: es2)))
      rw [← hT, hih, sessionMax_cons₂, max_assoc]

/-- C8 (amended).  A final-mode render session started from an idle
connection state with sample count N that runs to completion without
cancellation emits exactly N FRAME records whose sample indices are
consecutively 1..N, followed by exactly one DONE record, and returns the
session to idle without leaving the connection loop.  The peak field of the
DONE record is the maximum memory reading of the session joined with the
peak already accumulated by the connection before the session started — it
equals the session maximum only when no earlier session on the same
connection observed more. -/
theorem c8_final_render_complete (sock : Nat) (s : RenderState) (N r : Nat)
    (env : FrameEnv) (envs : List FrameEnv)
    (hidle : s.render_mode = RenderMode.RM_IDLE) (hstop : s.stopped = none)
    (hN : 1 ≤ N) (hlen : envs.length = N) :
    (loop_run sock s (msgIn (ClientMsg.start "final" N r) false env
        :: envs.map (tickIn true))).sent
      = s.sent ++ finalTrace s.framebuffer_width s.framebuffer_height
          s.render_output_socket.isSome N 1 s.peak_memory_usage envs ∧
    (finalTrace s.framebuffer_width s.framebuffer_height s.render_output_socket.isSome
          N 1 s.peak_memory_usage envs).map (fun m => (m.msg.rtype, m.msg.sample))
      = (List.range' 1 N).map (fun i => (RRType.FRAME, i)) ++ [(RRType.DONE, N)] ∧
    ((finalTrace s.framebuffer_width s.framebuffer_height s.render_output_socket.isSome
          N 1 s.peak_memory_usage envs).map (fun m => m.msg.peak_memory_usage)).getLast?
      = some (max s.peak_memory_usage (sessionMax envs)) ∧
    (loop_run sock s (msgIn (ClientMsg.start "final" N r) false env
        :: envs.map (tickIn true))).render_mode = RenderMode.RM_IDLE ∧
    (loop_run sock s (msgIn (ClientMsg.start "final" N r) false env
        :: envs.map (tickIn true))).stopped = none := by
  have hf := start_rendering_final_fields s N r hidle
  have hmne : (start_rendering s "final" N r).render_mode ≠ RenderMode.RM_IDLE := by
    rw [hf.1]
    decide
  have h0 : loop_run sock s (msgIn (ClientMsg.start "final" N r) false env
        :: envs.map (tickIn true))
      = loop_run sock (start_rendering s "final" N r) (envs.map (tickIn true)) := by
    simp only [loop_run, List.foldl_cons]
    rw [loop_iter_start sock s "final" N r false env hstop,
      render_section_not_ready _ env hmne hf.2.2.2.2.1]
  have main := loop_run_final_ticks sock s.framebuffer_width s.framebuffer_height
    s.render_output_socket.isSome N envs 1 (start_rendering s "final" N r)
    hf.1 hf.2.2.2.1 hf.2.2.2.2.1 ((hf.2.2.2.2.2.2.1).trans hstop)
    hf.2.1 hf.2.2.1 hf.2.2.2.2.2.2.2.2.2.2.1 hf.2.2.2.2.2.2.2.2.2.2.2
    (by rw [hf.2.2.2.2.2.2.2.2.2.1]) hN (by omega)
  refine ⟨?_, ?_, ?_, ?_, ?_⟩
  · rw [h0, main.1, hf.2.2.2.2.2.2.2.1, hf.2.2.2.2.2.2.2.2.1]
  · have hs := finalTrace_shape s.framebuffer_width s.framebuffer_height
      s.render_output_socket.isSome N envs 1 s.peak_memory_usage hN (by omega)
    simpa using hs
  · exact finalTrace_peak s.framebuffer_width s.framebuffer_height
      s.render_output_socket.isSome N envs 1 s.peak_memory_usage hN (by omega)
  · rw [h0]
    exact main.2.1
  · rw [h0]
    exact main.2.2.1

def c8envA : FrameEnv := { variance := 0, mem := 3, done_mem := 1 }

def c8envB : FrameEnv := { variance := 0, mem := 2, done_mem := 7 }

/-- C8 witness: a two-sample final-mode session on a fresh connection —
FRAME records at samples 1 and 2 then one DONE, whose peak field is the
session maximum because the connection accumulated nothing before it. -/
theorem c8_final_render_complete_witness :
    ((loop_run 0 idleRender (msgIn (ClientMsg.start "final" 2 1) false env0
        :: [c8envA, c8envB].map (tickIn true))).sent.map
          (fun m => (m.msg.rtype, m.msg.sample, m.msg.peak_memory_usage)))
      = [(RRType.FRAME, 1, 3), (RRType.FRAME, 2, 3), (RRType.DONE, 2, 7)] ∧
    (loop_run 0 idleRender (msgIn (ClientMsg.start "final" 2 1) false env0
        :: [c8envA, c8envB].map (tickIn true))).render_mode
      = RenderMode.RM_IDLE := by
  have h := c8_final_render_complete 0 idleRender 2 1 env0 [c8envA, c8envB]
    (by decide) (by decide) (by decide) (by decide)
  refine ⟨?_, h.2.2.2.1⟩
  rw [h.1]
  decide

def envHi : FrameEnv := { variance := 0, mem := 100, done_mem := 100 }

def envLo : FrameEnv := { variance := 0, mem := 5, done_mem := 5 }

def c8Inputs : List LoopIn :=
  [msgIn (ClientMsg.start "final" 1 1) false env0, tickIn true envHi,
   msgIn (ClientMsg.start "final" 1 1) false env0, tickIn true envLo]

/-- C8 counterexample to the per-session reading of the peak field: two
consecutive one-sample final-mode sessions on one connection, the first
observing memory 100, the second never observing more than 5.  The DONE
record of the second session still reports peak 100, because the running
peak local of `handle_connection` is never reset when a new session starts. -/
theorem c8_counterexample_second_session_peak :
    ((loop_run 0 idleRender c8Inputs).sent.map
        (fun m => (m.msg.rtype, m.msg.sample, m.msg.memory_usage,
          m.msg.peak_memory_usage)))
      = [(RRType.FRAME, 1, 100, 100), (RRType.DONE, 1, 100, 100),
         (RRType.FRAME, 1, 5, 100), (RRType.DONE, 1, 5, 100)] ∧
    (loop_run 0 idleRender c8Inputs).render_mode = RenderMode.RM_IDLE := by
  decide
